import Mathlib

/-!
Verification development for the mcan CAN-FD driver core.

The definitions below are a shallow embedding of the Rust sources:
  src/src/fdcan.rs, src/src/config.rs, src/src/message_ram_builder.rs,
  src/src/message_ram_layout.rs, src/src/tx_rx.rs, src/src/util.rs,
  src/src/embassy.rs, src/src/pac/mod.rs.
The embedding targets the `h7` + `embassy` feature configuration, which is the
one the repository's example (examples/h7_embassy) builds: trigger memory and
the third channel exist, FDCAN_MSGRAM_LEN_WORDS = 2560.

Machine integers: all counts are Rust u8, addresses/cursors u16.  In the
builder, `pos <= end = 2556` is an invariant and a single advance adds at most
255 * 18 * 4 = 18360, so u16 arithmetic can never wrap; the embedding therefore
uses `Nat` and is exact on the reachable range.  Register-field writes are
modelled as plain record fields (the generated `pac::registers` module is not
part of the sources; all values written by the claims fit their fields).

Rust type-state (the builder's phantom step parameter, the channel's mode
parameter) is embedded as a runtime tag field (`step`, `mode`), the encoding
the specification itself names as an equivalent mechanism.
-/

namespace Mcan

/-- FDCAN instance number (src/src/fdcan.rs, enum FdCanInstance; h7 has three). -/
inductive FdCanInstance where
  | FdCan1
  | FdCan2
  | FdCan3
deriving DecidableEq, Repr

/-- Driver error type (src/src/fdcan.rs, enum Error). -/
inductive Error where
  | PeripheralTaken
  | ClockSourceIsDisabled
  | CoreCommunicationFailed
  | UnsupportedCoreVersion
  | Timeout
  | MissingInstance
  | WrongInstance
  | TxBufferIndexOutOfRange
  | WrongDataSize
deriving DecidableEq, Repr

/-- Builder error type (src/src/message_ram_builder.rs, enum MessageRamBuilderError). -/
inductive MessageRamBuilderError where
  | TooManyElements
  | OutOfMemory
  | TooManyInstances
deriving DecidableEq, Repr

/-- Data size of an RX/TX element (src/src/message_ram_layout.rs, enum DataFieldSize). -/
inductive DataFieldSize where
  | _8Bytes
  | _12Bytes
  | _16Bytes
  | _20Bytes
  | _24Bytes
  | _32Bytes
  | _48Bytes
  | _64Bytes
deriving DecidableEq, Repr

/-- `DataFieldSize::words` (src/src/message_ram_layout.rs). -/
def DataFieldSize.words : DataFieldSize → Nat
  | ._8Bytes => 2
  | ._12Bytes => 3
  | ._16Bytes => 4
  | ._20Bytes => 5
  | ._24Bytes => 6
  | ._32Bytes => 8
  | ._48Bytes => 12
  | ._64Bytes => 16

/-- `DataFieldSize::config_register` (src/src/message_ram_layout.rs). -/
def DataFieldSize.config_register : DataFieldSize → Nat
  | ._8Bytes => 0b000
  | ._12Bytes => 0b001
  | ._16Bytes => 0b010
  | ._20Bytes => 0b011
  | ._24Bytes => 0b100
  | ._32Bytes => 0b101
  | ._48Bytes => 0b110
  | ._64Bytes => 0b111

/-- `DataFieldSize::max_len` (src/src/message_ram_layout.rs): the `repr(u8)`
discriminant, i.e. the payload capacity in bytes. -/
def DataFieldSize.max_len : DataFieldSize → Nat
  | ._8Bytes => 8
  | ._12Bytes => 12
  | ._16Bytes => 16
  | ._20Bytes => 20
  | ._24Bytes => 24
  | ._32Bytes => 32
  | ._48Bytes => 48
  | ._64Bytes => 64

/-- Message RAM layout (src/src/message_ram_layout.rs, struct MessageRamLayout,
`h7` configuration so the trigger-memory fields are present). -/
structure MessageRamLayout where
  eleven_bit_filters_addr : Nat
  eleven_bit_filters_len : Nat
  twenty_nine_bit_filters_addr : Nat
  twenty_nine_bit_filters_len : Nat
  rx_fifo0_addr : Nat
  rx_fifo0_len : Nat
  rx_fifo0_data_size : DataFieldSize
  rx_fifo1_addr : Nat
  rx_fifo1_len : Nat
  rx_fifo1_data_size : DataFieldSize
  rx_buffers_addr : Nat
  rx_buffers_len : Nat
  rx_buffers_data_size : DataFieldSize
  tx_event_fifo_addr : Nat
  tx_event_fifo_len : Nat
  tx_buffers_addr : Nat
  tx_buffers_len : Nat
  tx_fifo_or_queue_len : Nat
  tx_buffers_data_size : DataFieldSize
  trigger_memory_addr : Nat
  trigger_memory_len : Nat
deriving DecidableEq, Repr

/-- `MessageRamLayout::default` (src/src/message_ram_layout.rs): all zero,
all data sizes 8 bytes. -/
def MessageRamLayout.default : MessageRamLayout :=
  { eleven_bit_filters_addr := 0
    eleven_bit_filters_len := 0
    twenty_nine_bit_filters_addr := 0
    twenty_nine_bit_filters_len := 0
    rx_fifo0_addr := 0
    rx_fifo0_len := 0
    rx_fifo0_data_size := ._8Bytes
    rx_fifo1_addr := 0
    rx_fifo1_len := 0
    rx_fifo1_data_size := ._8Bytes
    rx_buffers_addr := 0
    rx_buffers_len := 0
    rx_buffers_data_size := ._8Bytes
    tx_event_fifo_addr := 0
    tx_event_fifo_len := 0
    tx_buffers_addr := 0
    tx_buffers_len := 0
    tx_fifo_or_queue_len := 0
    tx_buffers_data_size := ._8Bytes
    trigger_memory_addr := 0
    trigger_memory_len := 0 }

/-- TX buffer handle (src/src/message_ram_layout.rs, struct TxBufferIdx).
The source field `instance` is a Lean keyword, embedded as `inst`. -/
structure TxBufferIdx where
  inst : FdCanInstance
  idx : Nat
deriving DecidableEq, Repr

/-- FDCAN_MSGRAM_LEN_WORDS for the h7 family (src/src/pac/mod.rs). -/
def FDCAN_MSGRAM_LEN_WORDS : Nat := 2560

/-- Builder step tags (src/src/message_ram_builder.rs: the zero-sized state
types ElevenBitFilters .. TriggerMemory), embedded as a runtime tag. -/
inductive BuilderStep where
  | ElevenBitFilters
  | TwentyNineBitFilters
  | RxFifo0
  | RxFifo1
  | RxBuffers
  | TxEventFifo
  | TxBufferElementSize
  | TxBuffers
  | TriggerMemory
deriving DecidableEq, Repr

/-- Message RAM partitioner (src/src/message_ram_builder.rs, struct
MessageRamBuilder<S>).  `end` is a Lean keyword, embedded as `endW`;
`instance` is embedded as `inst`; the phantom type parameter S is embedded
as the runtime field `step`. -/
structure MsgRamBuilder where
  pos : Nat
  endW : Nat
  layout : MessageRamLayout
  inst : Option FdCanInstance
  step : BuilderStep
deriving DecidableEq, Repr

/-- `message_ram_builder()` (src/src/message_ram_builder.rs): the initial
builder.  The source wraps it in `Ok` unconditionally; the payload is embedded. -/
def message_ram_builder : MsgRamBuilder :=
  { pos := 0
    endW := FDCAN_MSGRAM_LEN_WORDS - 4
    layout := MessageRamLayout.default
    inst := some .FdCan1
    step := .ElevenBitFilters }

/-- The `check_and_advance!` macro body (src/src/message_ram_builder.rs):
bounds checks, then record (old cursor, len) through `store` and advance.
`store l addr len` plays the role of the macro's `$dest _addr` / `$dest _len`
field writes. -/
def check_and_advance (maxElements len elementSizeWords : Nat)
    (store : MessageRamLayout → Nat → Nat → MessageRamLayout)
    (b : MsgRamBuilder) : Except MessageRamBuilderError MsgRamBuilder :=
  if len > maxElements then
    .error .TooManyElements
  else
    let newPos := b.pos + len * elementSizeWords * 4
    if newPos > b.endW then
      .error .OutOfMemory
    else
      .ok { b with layout := store b.layout b.pos len, pos := newPos }

/-- Models `Option::expect("checked on step one")` on the builder's instance
field.  In the source this panics on `None`; every use is guarded by the
step-one check (`allocate_11bit_filters` fails with TooManyInstances when the
instance is `None`), and every theorem below only reaches this function with
the instance present, so the fallback branch is unreachable in all statements. -/
def expectInstance : Option FdCanInstance → FdCanInstance
  | some i => i
  | none => .FdCan1

/-- `MessageRamBuilder::<ElevenBitFilters>::allocate_11bit_filters`
(src/src/message_ram_builder.rs, MAX_ELEMENTS = 128, element size 1 word). -/
def allocate_11bit_filters (b : MsgRamBuilder) (len : Nat) :
    Except MessageRamBuilderError MsgRamBuilder :=
  if b.inst.isNone then
    .error .TooManyInstances
  else
    (check_and_advance 128 len 1
      (fun l a n => { l with eleven_bit_filters_addr := a, eleven_bit_filters_len := n }) b).map
      (fun b2 => { b2 with step := .TwentyNineBitFilters })

/-- `allocate_29bit_filters` (MAX_ELEMENTS = 64, element size 2 words). -/
def allocate_29bit_filters (b : MsgRamBuilder) (len : Nat) :
    Except MessageRamBuilderError MsgRamBuilder :=
  (check_and_advance 64 len 2
    (fun l a n => { l with twenty_nine_bit_filters_addr := a, twenty_nine_bit_filters_len := n }) b).map
    (fun b2 => { b2 with step := .RxFifo0 })

/-- `allocate_rx_fifo0_buffers` (MAX_ELEMENTS = 64, element size 2 + data words). -/
def allocate_rx_fifo0_buffers (b : MsgRamBuilder) (len : Nat) (data_size : DataFieldSize) :
    Except MessageRamBuilderError MsgRamBuilder :=
  (check_and_advance 64 len (2 + data_size.words)
    (fun l a n => { l with rx_fifo0_addr := a, rx_fifo0_len := n }) b).map
    (fun b2 => { b2 with layout := { b2.layout with rx_fifo0_data_size := data_size },
                         step := .RxFifo1 })

/-- `allocate_rx_fifo1_buffers` (MAX_ELEMENTS = 64, element size 2 + data words). -/
def allocate_rx_fifo1_buffers (b : MsgRamBuilder) (len : Nat) (data_size : DataFieldSize) :
    Except MessageRamBuilderError MsgRamBuilder :=
  (check_and_advance 64 len (2 + data_size.words)
    (fun l a n => { l with rx_fifo1_addr := a, rx_fifo1_len := n }) b).map
    (fun b2 => { b2 with layout := { b2.layout with rx_fifo1_data_size := data_size },
                         step := .RxBuffers })

/-- `allocate_rx_buffers` (MAX_ELEMENTS = 64, element size 2 + data words). -/
def allocate_rx_buffers (b : MsgRamBuilder) (len : Nat) (data_size : DataFieldSize) :
    Except MessageRamBuilderError MsgRamBuilder :=
  (check_and_advance 64 len (2 + data_size.words)
    (fun l a n => { l with rx_buffers_addr := a, rx_buffers_len := n }) b).map
    (fun b2 => { b2 with layout := { b2.layout with rx_buffers_data_size := data_size },
                         step := .TxEventFifo })

/-- `skip_dedicated_buffers` (src/src/message_ram_builder.rs). -/
def skip_dedicated_buffers (b : MsgRamBuilder) : MsgRamBuilder :=
  { b with step := .TxEventFifo }

/-- `allocate_tx_event_fifo_buffers` (MAX_ELEMENTS = 32, element size 2 words). -/
def allocate_tx_event_fifo_buffers (b : MsgRamBuilder) (len : Nat) :
    Except MessageRamBuilderError MsgRamBuilder :=
  (check_and_advance 32 len 2
    (fun l a n => { l with tx_event_fifo_addr := a, tx_event_fifo_len := n }) b).map
    (fun b2 => { b2 with step := .TxBufferElementSize })

/-- `tx_buffer_element_size` (src/src/message_ram_builder.rs). -/
def tx_buffer_element_size (b : MsgRamBuilder) (data_size : DataFieldSize) : MsgRamBuilder :=
  { b with layout := { b.layout with tx_buffers_data_size := data_size }, step := .TxBuffers }

/-- `allocate_dedicated_tx_buffer` (src/src/message_ram_builder.rs,
MAX_ELEMENTS = 32): increments the dedicated count, checks the bound, and
hands out a TxBufferIdx tagged with the builder's instance. -/
def allocate_dedicated_tx_buffer (b : MsgRamBuilder) :
    Except MessageRamBuilderError (TxBufferIdx × MsgRamBuilder) :=
  let idx := b.layout.tx_buffers_len
  let b := { b with layout := { b.layout with tx_buffers_len := b.layout.tx_buffers_len + 1 } }
  if b.layout.tx_buffers_len > 32 then
    .error .TooManyElements
  else
    .ok ({ inst := expectInstance b.inst, idx := idx }, b)

/-- `allocate_fifo_or_queue` (MAX_ELEMENTS = 32, element size
2 + tx_buffers_data_size words; the checked length is FIFO/queue plus the
dedicated buffers already counted). -/
def allocate_fifo_or_queue (b : MsgRamBuilder) (fifo_or_queue_len : Nat) :
    Except MessageRamBuilderError MsgRamBuilder :=
  let len := fifo_or_queue_len + b.layout.tx_buffers_len
  (check_and_advance 32 len (2 + b.layout.tx_buffers_data_size.words)
    (fun l a n => { l with tx_buffers_addr := a, tx_buffers_len := n }) b).map
    (fun b2 => { b2 with layout := { b2.layout with tx_fifo_or_queue_len := fifo_or_queue_len },
                         step := .TriggerMemory })

/-- `allocate_triggers` (MAX_ELEMENTS = 64, element size 2 words): final step,
yields the finished layout and a builder back at the first step with the
instance advanced round-robin FdCan1 -> FdCan2 -> FdCan3 -> exhausted. -/
def allocate_triggers (b : MsgRamBuilder) (len : Nat) :
    Except MessageRamBuilderError (MessageRamLayout × MsgRamBuilder) :=
  (check_and_advance 64 len 2
    (fun l a n => { l with trigger_memory_addr := a, trigger_memory_len := n }) b).map
    (fun b2 =>
      let next : Option FdCanInstance :=
        match expectInstance b2.inst with
        | .FdCan1 => some .FdCan2
        | .FdCan2 => some .FdCan3
        | .FdCan3 => none
      (b2.layout, { b2 with inst := next, step := .ElevenBitFilters }))

/-- A sequence of `n` `allocate_dedicated_tx_buffer` calls ("one call per
desired buffer", src/src/message_ram_builder.rs doc), handles discarded. -/
def allocate_dedicated_n : Nat → MsgRamBuilder → Except MessageRamBuilderError MsgRamBuilder
  | 0, b => .ok b
  | n + 1, b =>
    match allocate_dedicated_tx_buffer b with
    | .error e => .error e
    | .ok (_, b2) => allocate_dedicated_n n b2

/-- One complete partition pass in the builder's fixed step order
(src/src/message_ram_builder.rs): 11-bit filters, 29-bit filters, RX FIFO0,
RX FIFO1, RX dedicated buffers, TX event FIFO, TX element size, `nded`
dedicated TX buffers, TX FIFO/queue, trigger memory. -/
def fullPass (b : MsgRamBuilder)
    (n11 n29 nf0 : Nat) (s0 : DataFieldSize) (nf1 : Nat) (s1 : DataFieldSize)
    (nrb : Nat) (srb : DataFieldSize) (nev : Nat) (stx : DataFieldSize)
    (nded nfq ntr : Nat) :
    Except MessageRamBuilderError (MessageRamLayout × MsgRamBuilder) :=
  match allocate_11bit_filters b n11 with
  | .error e => .error e
  | .ok b => match allocate_29bit_filters b n29 with
  | .error e => .error e
  | .ok b => match allocate_rx_fifo0_buffers b nf0 s0 with
  | .error e => .error e
  | .ok b => match allocate_rx_fifo1_buffers b nf1 s1 with
  | .error e => .error e
  | .ok b => match allocate_rx_buffers b nrb srb with
  | .error e => .error e
  | .ok b => match allocate_tx_event_fifo_buffers b nev with
  | .error e => .error e
  | .ok b =>
    let b := tx_buffer_element_size b stx
    match allocate_dedicated_n nded b with
  | .error e => .error e
  | .ok b => match allocate_fifo_or_queue b nfq with
  | .error e => .error e
  | .ok b => allocate_triggers b ntr

/-! ## Bit timings, configuration (src/src/config.rs) -/

/-- Nominal bit timing (src/src/config.rs, struct NominalBitTiming).  The
source fields are NonZeroU16/NonZeroU8; the nonzero constraints appear as
hypotheses where needed. -/
structure NominalBitTiming where
  prescaler : Nat
  seg1 : Nat
  seg2 : Nat
  sync_jump_width : Nat
deriving DecidableEq, Repr

/-- `NominalBitTiming::nbrp` (src/src/config.rs): `u16::from(prescaler) & 0x1FF`. -/
def NominalBitTiming.nbrp (b : NominalBitTiming) : Nat := b.prescaler % 512

/-- `NominalBitTiming::ntseg1` (src/src/config.rs): `u8::from(seg1)`, no mask. -/
def NominalBitTiming.ntseg1 (b : NominalBitTiming) : Nat := b.seg1

/-- `NominalBitTiming::ntseg2` (src/src/config.rs): `u8::from(seg2) & 0x7F`. -/
def NominalBitTiming.ntseg2 (b : NominalBitTiming) : Nat := b.seg2 % 128

/-- `NominalBitTiming::nsjw` (src/src/config.rs): `u8::from(sync_jump_width) & 0x7F`. -/
def NominalBitTiming.nsjw (b : NominalBitTiming) : Nat := b.sync_jump_width % 128

/-- `NominalBitTiming::default` (src/src/config.rs). -/
def NominalBitTiming.default : NominalBitTiming :=
  { prescaler := 1, seg1 := 11, seg2 := 4, sync_jump_width := 4 }

/-- Data bit timing (src/src/config.rs, struct DataBitTiming). -/
structure DataBitTiming where
  transceiver_delay_compensation : Bool
  prescaler : Nat
  seg1 : Nat
  seg2 : Nat
  sync_jump_width : Nat
deriving DecidableEq, Repr

/-- `DataBitTiming::dbrp` (src/src/config.rs): `& 0x1F`. -/
def DataBitTiming.dbrp (b : DataBitTiming) : Nat := b.prescaler % 32

/-- `DataBitTiming::dtseg1` (src/src/config.rs): `& 0x1F`. -/
def DataBitTiming.dtseg1 (b : DataBitTiming) : Nat := b.seg1 % 32

/-- `DataBitTiming::dtseg2` (src/src/config.rs): `& 0x0F`. -/
def DataBitTiming.dtseg2 (b : DataBitTiming) : Nat := b.seg2 % 16

/-- `DataBitTiming::dsjw` (src/src/config.rs): `& 0x0F`. -/
def DataBitTiming.dsjw (b : DataBitTiming) : Nat := b.sync_jump_width % 16

/-- `DataBitTiming::default` (src/src/config.rs). -/
def DataBitTiming.default : DataBitTiming :=
  { transceiver_delay_compensation := false, prescaler := 1, seg1 := 11, seg2 := 4,
    sync_jump_width := 4 }

/-- `FrameTransmissionConfig` (src/src/config.rs). -/
inductive FrameTransmissionConfig where
  | ClassicCanOnly
  | AllowFdCan
  | AllowFdCanAndBRS
deriving DecidableEq, Repr

/-- `ClockDivider` (src/src/config.rs): stored as its 4-bit register encoding. -/
inductive ClockDivider where
  | _1 | _2 | _4 | _6 | _8 | _10 | _12 | _14
  | _16 | _18 | _20 | _22 | _24 | _26 | _28 | _30
deriving DecidableEq, Repr

/-- `TimestampPrescaler` (src/src/config.rs). -/
inductive TimestampPrescaler where
  | _1 | _2 | _3 | _4 | _5 | _6 | _7 | _8
  | _9 | _10 | _11 | _12 | _13 | _14 | _15 | _16
deriving DecidableEq, Repr

/-- `TimestampSource` (src/src/config.rs). -/
inductive TimestampSource where
  | None
  | Prescaler (p : TimestampPrescaler)
  | FromTIM3
deriving DecidableEq, Repr

/-- `NonMatchingFilter` (src/src/config.rs). -/
inductive NonMatchingFilter where
  | IntoRxFifo0
  | IntoRxFifo1
  | Reject
deriving DecidableEq, Repr

/-- `GlobalFilter` (src/src/config.rs). -/
structure GlobalFilter where
  handle_standard_frames : NonMatchingFilter
  handle_extended_frames : NonMatchingFilter
  reject_remote_standard_frames : Bool
  reject_remote_extended_frames : Bool
deriving DecidableEq, Repr

/-- `GlobalFilter::default` (src/src/config.rs). -/
def GlobalFilter.default : GlobalFilter :=
  { handle_standard_frames := .IntoRxFifo0
    handle_extended_frames := .IntoRxFifo0
    reject_remote_standard_frames := false
    reject_remote_extended_frames := false }

/-- `FdCanConfig` (src/src/config.rs).  `interrupt_line_config` is the raw
`Ir` register word.  h7 configuration, so the layout field is present. -/
structure FdCanConfig where
  nbtr : NominalBitTiming
  dbtr : DataBitTiming
  automatic_retransmit : Bool
  transmit_pause : Bool
  frame_transmit : FrameTransmissionConfig
  non_iso_mode : Bool
  edge_filtering : Bool
  protocol_exception_handling : Bool
  clock_divider : ClockDivider
  interrupt_line_config : Nat
  timestamp_source : TimestampSource
  global_filter : GlobalFilter
  layout : MessageRamLayout
  timeout_iterations_long : Nat
  timeout_iterations_short : Nat
deriving DecidableEq, Repr

/-- `FdCanConfig::default` (src/src/config.rs). -/
def FdCanConfig.default : FdCanConfig :=
  { nbtr := NominalBitTiming.default
    dbtr := DataBitTiming.default
    automatic_retransmit := true
    transmit_pause := false
    frame_transmit := .ClassicCanOnly
    non_iso_mode := false
    edge_filtering := false
    interrupt_line_config := 0
    protocol_exception_handling := true
    clock_divider := ._1
    timestamp_source := .None
    global_filter := GlobalFilter.default
    layout := MessageRamLayout.default
    timeout_iterations_long := 10000000
    timeout_iterations_short := 1000000 }

/-! ## Channel state and hardware model (src/src/fdcan.rs, src/src/config.rs) -/

/-- Operating-mode tags (src/src/fdcan.rs: the zero-sized mode types),
embedded as one runtime tag. -/
inductive Mode where
  | PoweredDownMode
  | ConfigMode
  | InternalLoopbackMode
  | ExternalLoopbackMode
  | NormalOperationMode
  | RestrictedOperationMode
  | BusMonitoringMode
  | TestMode
deriving DecidableEq, Repr

/-- `LoopbackMode` (src/src/fdcan.rs). -/
inductive LoopbackMode where
  | None
  | Internal
  | External
deriving DecidableEq, Repr

/-- The NBTP register fields as written by `set_nominal_bit_timing`
(src/src/config.rs). -/
structure Nbtp where
  nbrp : Nat
  ntseg1 : Nat
  ntseg2 : Nat
  nsjw : Nat
deriving DecidableEq, Repr

/-- The DBTP register fields as written by `set_data_bit_timing`
(src/src/config.rs). -/
structure Dbtp where
  dbrp : Nat
  dtseg1 : Nat
  dtseg2 : Nat
  dsjw : Nat
deriving DecidableEq, Repr

/-- The hardware visible to one channel: registers written by the driver
(CCCR bits, TEST.LBCK, NBTP/DBTP, ILS, GFC, the layout registers, TXBCR/TXBAR)
and register values observed by the driver.  Reads of a register that the
driver busy-polls are modelled as a stream indexed by the poll iteration
(`csa`, `initEnter`, `initLeave`, `txbcf`): the hardware may change these
between reads.  `ram` is the shared message RAM, word-addressed.
`asmb` embeds the CCCR.ASM bit (`asm` alone reads poorly in Lean). -/
structure Hw where
  endn : Nat
  rel : Nat
  csr : Bool
  init : Bool
  cce : Bool
  test : Bool
  mon : Bool
  lbck : Bool
  asmb : Bool
  dar : Bool
  txp : Bool
  fdoe : Bool
  bse : Bool
  niso : Bool
  efbi : Bool
  pxhd : Bool
  ils : Nat
  anfs : Nat
  anfe : Nat
  rrfs : Bool
  rrfe : Bool
  nbtp : Nbtp
  dbtp : Dbtp
  layoutReg : Option MessageRamLayout
  csa : Nat → Bool
  initEnter : Nat → Bool
  initLeave : Nat → Bool
  txbrp : Nat → Bool
  txbcf : Nat → Nat → Bool
  txbto : Nat → Bool
  txbcr : Nat → Bool
  txbar : Nat → Bool
  ram : Nat → Nat

/-- One channel (src/src/fdcan.rs, struct FdCan<M>): instance identity, the
cached configuration, and the mode tag.  The register-block pointer and the
embassy waker state carry no observable data and are not modelled. -/
structure FdCanState where
  inst : FdCanInstance
  config : FdCanConfig
  mode : Mode

/-- `checked_wait` inner loop (src/src/util.rs): reads the polled condition at
successive iterations `i`; on a `true` read with no budget remaining, times
out.  `remaining` starts at `timeout_iterations - 1` since the source
increments `elapsed` before comparing. -/
def checkedWaitFrom (f : Nat → Bool) : Nat → Nat → Except Error Unit
  | remaining, i =>
    if f i then
      match remaining with
      | 0 => .error .Timeout
      | r + 1 => checkedWaitFrom f r (i + 1)
    else .ok ()

/-- `checked_wait` (src/src/util.rs). -/
def checkedWait (f : Nat → Bool) (timeout_iterations : Nat) : Except Error Unit :=
  checkedWaitFrom f (timeout_iterations - 1) 0

/-- `FdCan::check_core` (src/src/fdcan.rs): endianness sentinel then core
revision. -/
def check_core (h : Hw) : Except Error Unit :=
  if h.endn ≠ 0x87654321 then
    .error .CoreCommunicationFailed
  else if h.rel ≠ 3 then
    .error .UnsupportedCoreVersion
  else
    .ok ()

/-- `FdCan::set_power_down_mode` (src/src/fdcan.rs): write CCCR.CSR, then
poll CCCR.CSA (bounded by the long budget) while it differs from the
requested state. -/
def set_power_down_mode (cfg : FdCanConfig) (h : Hw) (enabled : Bool) :
    Except Error Unit × Hw :=
  let h2 := { h with csr := enabled }
  (checkedWait (fun k => h2.csa k != enabled) cfg.timeout_iterations_long, h2)

/-- `FdCan::enter_init_mode` (src/src/fdcan.rs): set CCCR.INIT, poll (short
budget) until INIT reads back set, then set CCCR.CCE. -/
def enter_init_mode (cfg : FdCanConfig) (h : Hw) : Except Error Unit × Hw :=
  let h2 := { h with init := true }
  match checkedWait (fun k => !(h2.initEnter k)) cfg.timeout_iterations_short with
  | .error e => (.error e, h2)
  | .ok _ => (.ok (), { h2 with cce := true })

/-- `FdCan::zero_msg_ram` (src/src/fdcan.rs): write zero to every word of the
shared message RAM. -/
def zero_msg_ram (h : Hw) : Hw :=
  { h with ram := fun i => if i < FDCAN_MSGRAM_LEN_WORDS then 0 else h.ram i }

/-- `FdCan::<PoweredDownMode>::try_config_mode` (src/src/fdcan.rs):
check_core, leave clock-stop, enter init, zero the RAM. -/
def try_config_mode (c : FdCanState) (h : Hw) : Except Error Unit × Hw :=
  match check_core h with
  | .error e => (.error e, h)
  | .ok _ =>
    match set_power_down_mode c.config h false with
    | (.error e, h2) => (.error e, h2)
    | (.ok _, h2) =>
      match enter_init_mode c.config h2 with
      | (.error e, h3) => (.error e, h3)
      | (.ok _, h3) => (.ok (), zero_msg_ram h3)

/-- `FdCan::<PoweredDownMode>::into_config_mode` (src/src/fdcan.rs): on
success the value is re-tagged ConfigMode; on failure the original value is
returned beside the error. -/
def into_config_mode (c : FdCanState) (h : Hw) :
    Except (Error × FdCanState) FdCanState × Hw :=
  match try_config_mode c h with
  | (.error e, h2) => (.error (e, c), h2)
  | (.ok _, h2) => (.ok { c with mode := .ConfigMode }, h2)

/-- `FdCan::set_test_mode` (src/src/fdcan.rs). -/
def set_test_mode (enabled : Bool) (h : Hw) : Hw := { h with test := enabled }

/-- `FdCan::set_bus_monitoring_mode` (src/src/fdcan.rs). -/
def set_bus_monitoring_mode (enabled : Bool) (h : Hw) : Hw := { h with mon := enabled }

/-- `FdCan::set_restricted_operations` (src/src/fdcan.rs). -/
def set_restricted_operations (enabled : Bool) (h : Hw) : Hw := { h with asmb := enabled }

/-- `FdCan::set_loopback_mode` (src/src/fdcan.rs): programs TEST, MON and
TEST.LBCK according to the loopback variant. -/
def set_loopback_mode (mode : LoopbackMode) (h : Hw) : Hw :=
  let tml : Bool × Bool × Bool :=
    match mode with
    | .None => (false, false, false)
    | .Internal => (true, true, true)
    | .External => (true, false, true)
  { set_bus_monitoring_mode tml.2.1 (set_test_mode tml.1 h) with lbck := tml.2.2 }

/-- `FdCan::set_normal_operations` (src/src/fdcan.rs). -/
def set_normal_operations (_enabled : Bool) (h : Hw) : Hw :=
  set_loopback_mode .None h

/-- `FdCan::<ConfigMode>::set_nominal_bit_timing` (src/src/config.rs): caches
the timing and writes NBTP with every field decremented by one. -/
def set_nominal_bit_timing (c : FdCanState) (h : Hw) (btr : NominalBitTiming) :
    FdCanState × Hw :=
  ({ c with config := { c.config with nbtr := btr } },
   { h with nbtp := { nbrp := btr.nbrp - 1, ntseg1 := btr.ntseg1 - 1,
                      ntseg2 := btr.ntseg2 - 1, nsjw := btr.nsjw - 1 } })

/-- `FdCan::<ConfigMode>::set_data_bit_timing` (src/src/config.rs). -/
def set_data_bit_timing (c : FdCanState) (h : Hw) (btr : DataBitTiming) :
    FdCanState × Hw :=
  ({ c with config := { c.config with dbtr := btr } },
   { h with dbtp := { dbrp := btr.dbrp - 1, dtseg1 := btr.dtseg1 - 1,
                      dtseg2 := btr.dtseg2 - 1, dsjw := btr.dsjw - 1 } })

/-- `FrameTransmissionConfig` to (FDOE, BRSE) as in `set_frame_transmit`
(src/src/config.rs). -/
def frame_transmit_bits : FrameTransmissionConfig → Bool × Bool
  | .ClassicCanOnly => (false, false)
  | .AllowFdCan => (true, false)
  | .AllowFdCanAndBRS => (true, true)

/-- `NonMatchingFilter` register encoding (src/src/config.rs `as u8`). -/
def NonMatchingFilter.code : NonMatchingFilter → Nat
  | .IntoRxFifo0 => 0b00
  | .IntoRxFifo1 => 0b01
  | .Reject => 0b11

/-- `FdCan::<ConfigMode>::apply_config` (src/src/config.rs): rewrites every
configuration register from the given config (bit timings, retransmission,
pause, frame-transmission capability, interrupt routing, non-ISO, edge
filtering, protocol-exception handling, global filter, RAM layout).  The
layout-register write (`set_layout`) copies each region's base/size into its
register; it is embedded as recording the written layout in `layoutReg`. -/
def apply_config (c : FdCanState) (h : Hw) (cfg : FdCanConfig) : FdCanState × Hw :=
  let (c, h) := set_data_bit_timing c h cfg.dbtr
  let (c, h) := set_nominal_bit_timing c h cfg.nbtr
  let c := { c with config := { c.config with
    automatic_retransmit := cfg.automatic_retransmit
    transmit_pause := cfg.transmit_pause
    frame_transmit := cfg.frame_transmit
    interrupt_line_config := cfg.interrupt_line_config
    non_iso_mode := cfg.non_iso_mode
    edge_filtering := cfg.edge_filtering
    protocol_exception_handling := cfg.protocol_exception_handling
    layout := cfg.layout } }
  let fb := frame_transmit_bits cfg.frame_transmit
  let h := { h with
    dar := !cfg.automatic_retransmit
    txp := cfg.transmit_pause
    fdoe := fb.1
    bse := fb.2
    ils := cfg.interrupt_line_config
    niso := cfg.non_iso_mode
    efbi := cfg.edge_filtering
    pxhd := !cfg.protocol_exception_handling
    anfs := cfg.global_filter.handle_standard_frames.code
    anfe := cfg.global_filter.handle_extended_frames.code
    rrfs := cfg.global_filter.reject_remote_standard_frames
    rrfe := cfg.global_filter.reject_remote_extended_frames
    layoutReg := some cfg.layout }
  (c, h)

/-- `FdCan::<ConfigMode>::leave_init_mode` (src/src/config.rs): apply the full
cached config, clear CCE, clear INIT, poll (short budget) while INIT still
reads set. -/
def leave_init_mode (c : FdCanState) (h : Hw) : Except Error Unit × FdCanState × Hw :=
  let (c, h) := apply_config c h c.config
  let h := { h with cce := false }
  let h := { h with init := false }
  (checkedWait (fun k => h.initLeave k) c.config.timeout_iterations_short, c, h)

/-- `FdCan::<ConfigMode>::into_internal_loopback` (src/src/config.rs). -/
def into_internal_loopback (c : FdCanState) (h : Hw) :
    Except (Error × FdCanState) FdCanState × Hw :=
  let h := set_loopback_mode .Internal h
  match leave_init_mode c h with
  | (.error e, c2, h2) => (.error (e, c2), h2)
  | (.ok _, c2, h2) => (.ok { c2 with mode := .InternalLoopbackMode }, h2)

/-- `FdCan::<ConfigMode>::into_external_loopback` (src/src/config.rs). -/
def into_external_loopback (c : FdCanState) (h : Hw) :
    Except (Error × FdCanState) FdCanState × Hw :=
  let h := set_loopback_mode .External h
  match leave_init_mode c h with
  | (.error e, c2, h2) => (.error (e, c2), h2)
  | (.ok _, c2, h2) => (.ok { c2 with mode := .ExternalLoopbackMode }, h2)

/-- `FdCan::<ConfigMode>::into_restricted` (src/src/config.rs). -/
def into_restricted (c : FdCanState) (h : Hw) :
    Except (Error × FdCanState) FdCanState × Hw :=
  let h := set_restricted_operations true h
  match leave_init_mode c h with
  | (.error e, c2, h2) => (.error (e, c2), h2)
  | (.ok _, c2, h2) => (.ok { c2 with mode := .RestrictedOperationMode }, h2)

/-- `FdCan::<ConfigMode>::into_normal` (src/src/config.rs). -/
def into_normal (c : FdCanState) (h : Hw) :
    Except (Error × FdCanState) FdCanState × Hw :=
  let h := set_normal_operations true h
  match leave_init_mode c h with
  | (.error e, c2, h2) => (.error (e, c2), h2)
  | (.ok _, c2, h2) => (.ok { c2 with mode := .NormalOperationMode }, h2)

/-- `FdCan::<ConfigMode>::into_bus_monitoring` (src/src/config.rs). -/
def into_bus_monitoring (c : FdCanState) (h : Hw) :
    Except (Error × FdCanState) FdCanState × Hw :=
  let h := set_bus_monitoring_mode true h
  match leave_init_mode c h with
  | (.error e, c2, h2) => (.error (e, c2), h2)
  | (.ok _, c2, h2) => (.ok { c2 with mode := .BusMonitoringMode }, h2)

/-- `FdCan::<ConfigMode>::into_test_mode` (src/src/config.rs). -/
def into_test_mode (c : FdCanState) (h : Hw) :
    Except (Error × FdCanState) FdCanState × Hw :=
  let h := set_test_mode true h
  match leave_init_mode c h with
  | (.error e, c2, h2) => (.error (e, c2), h2)
  | (.ok _, c2, h2) => (.ok { c2 with mode := .TestMode }, h2)

/-! ## Frame transport (src/src/tx_rx.rs, src/src/message_ram_layout.rs) -/

/-- `Dlc` (src/src/tx_rx.rs). -/
inductive Dlc where
  | _0Bytes | _1Bytes | _2Bytes | _3Bytes | _4Bytes | _5Bytes | _6Bytes | _7Bytes
  | _8Bytes | _12Bytes | _16Bytes | _20Bytes | _24Bytes | _32Bytes | _48Bytes | _64Bytes
deriving DecidableEq, Repr

/-- `Dlc::len` (src/src/tx_rx.rs): the `repr(u8)` discriminant, i.e. the
payload byte count. -/
def Dlc.len : Dlc → Nat
  | ._0Bytes => 0
  | ._1Bytes => 1
  | ._2Bytes => 2
  | ._3Bytes => 3
  | ._4Bytes => 4
  | ._5Bytes => 5
  | ._6Bytes => 6
  | ._7Bytes => 7
  | ._8Bytes => 8
  | ._12Bytes => 12
  | ._16Bytes => 16
  | ._20Bytes => 20
  | ._24Bytes => 24
  | ._32Bytes => 32
  | ._48Bytes => 48
  | ._64Bytes => 64

/-- `Dlc::from_len` (src/src/tx_rx.rs): only exact DLC step lengths map to a
DLC; every other length maps to `none`. -/
def Dlc.from_len : Nat → Option Dlc
  | 0 => some ._0Bytes
  | 1 => some ._1Bytes
  | 2 => some ._2Bytes
  | 3 => some ._3Bytes
  | 4 => some ._4Bytes
  | 5 => some ._5Bytes
  | 6 => some ._6Bytes
  | 7 => some ._7Bytes
  | 8 => some ._8Bytes
  | 12 => some ._12Bytes
  | 16 => some ._16Bytes
  | 20 => some ._20Bytes
  | 24 => some ._24Bytes
  | 32 => some ._32Bytes
  | 48 => some ._48Bytes
  | 64 => some ._64Bytes
  | _ => none

/-- `Dlc::reg_value` (src/src/tx_rx.rs): the 4-bit hardware DLC code. -/
def Dlc.reg_value : Dlc → Nat
  | ._0Bytes => 0
  | ._1Bytes => 1
  | ._2Bytes => 2
  | ._3Bytes => 3
  | ._4Bytes => 4
  | ._5Bytes => 5
  | ._6Bytes => 6
  | ._7Bytes => 7
  | ._8Bytes => 8
  | ._12Bytes => 9
  | ._16Bytes => 10
  | ._20Bytes => 11
  | ._24Bytes => 12
  | ._32Bytes => 13
  | ._48Bytes => 14
  | ._64Bytes => 15

/-- Modelled from the spec: the transmit header.  The source struct
`TxFrameHeader` (src/src/tx_rx.rs) carries frame format, id, BRS, ESI and
marker, and `TxBufferElement::fill` — called at src/src/tx_rx.rs:214 but whose
body is not among the sources — encodes them into the element's two header
words T0 and T1 (spec 4.4: "writes the two header words").  The embedding
keeps the header as its two encoded words, with the DLC field of T1 (bits
16-19 per TxBufferElementT0/T1 in src/src/pac/message_ram.rs) split out so
`fill` can insert the DLC it receives. -/
structure TxFrameHeader where
  t0word : Nat
  t1rest : Nat

/-- Pointwise word update of a RAM image. -/
def wupd (f : Nat → Nat) (a v : Nat) : Nat → Nat :=
  fun x => if x = a then v else f x

/-- Modelled from the spec: `TxBufferElement::fill` writes the two header
words of the slot (T0 at the slot base, T1 just above, its DLC field at bits
16-19); see `TxFrameHeader`. -/
def fill (ram : Nat → Nat) (offset : Nat) (hdr : TxFrameHeader) (dlc : Dlc) : Nat → Nat :=
  wupd (wupd ram offset hdr.t0word) (offset + 1) (hdr.t1rest + dlc.reg_value * 65536)

/-- Little-endian word value of up to four payload bytes
(`u32::from_le_bytes`, with missing high bytes zero — the partial-chunk branch
of `write_tx_buffer_pend`, src/src/tx_rx.rs). -/
def leWord : List Nat → Nat
  | [] => 0
  | b :: rest => b + 256 * leWord rest

/-- The payload-packing loop of `write_tx_buffer_pend` (src/src/tx_rx.rs):
for each slot data word (up to `w` of them) take the next 4-byte chunk of
`data`; stop early when the chunks run out, leaving the remaining slot words
untouched. -/
def packPayload (ram : Nat → Nat) (base w : Nat) (data : List Nat) : Nat → Nat :=
  match w, data with
  | 0, _ => ram
  | _ + 1, [] => ram
  | w + 1, b :: rest =>
    packPayload (wupd ram base (leWord ((b :: rest).take 4))) (base + 1) w ((b :: rest).drop 4)

/-- The TX buffer element handle produced by `MessageRam::tx_buffer`
(src/src/message_ram_layout.rs): the slot's word offset in message RAM and
the data-area word count. -/
structure TxBufferRef where
  offset : Nat
  dataWords : Nat
deriving DecidableEq, Repr

/-- `MessageRam::tx_buffer` (src/src/message_ram_layout.rs): instance check
first, then range check, then the slot handle at
`tx_buffers_addr + idx` with `tx_buffers_data_size.words` data words. -/
def tx_buffer (layout : MessageRamLayout) (selfInst : FdCanInstance) (idx : TxBufferIdx) :
    Except Error TxBufferRef :=
  if idx.inst ≠ selfInst then
    .error .WrongInstance
  else if layout.tx_buffers_len = 0 ∨ layout.tx_buffers_len ≤ idx.idx then
    .error .TxBufferIndexOutOfRange
  else
    .ok { offset := layout.tx_buffers_addr + idx.idx
          dataWords := layout.tx_buffers_data_size.words }

/-- `FdCan::write_tx_buffer_pend` (src/src/tx_rx.rs, h7): resolve the buffer,
map the payload length to a DLC (`WrongDataSize` when no exact step exists or
the step exceeds the configured field size), write the header words and the
little-endian packed payload, then set the slot's TXBAR add-request bit. -/
def write_tx_buffer_pend (c : FdCanState) (h : Hw) (idx : TxBufferIdx)
    (tx_header : TxFrameHeader) (data : List Nat) : Except Error Unit × Hw :=
  match tx_buffer c.config.layout c.inst idx with
  | .error e => (.error e, h)
  | .ok tb =>
    match Dlc.from_len data.length with
    | none => (.error .WrongDataSize, h)
    | some dlc =>
      if c.config.layout.tx_buffers_data_size.max_len < dlc.len then
        (.error .WrongDataSize, h)
      else
        let ram1 := fill h.ram tb.offset tx_header dlc
        let ram2 := packPayload ram1 (tb.offset + 2) tb.dataWords data
        (.ok (), { h with ram := ram2,
                          txbar := fun i => if i = idx.idx then true else h.txbar i })

/-- `FdCan::has_pending_frame` (src/src/tx_rx.rs): TXBRP bit of the slot. -/
def has_pending_frame (h : Hw) (idx : TxBufferIdx) : Bool :=
  h.txbrp idx.idx

/-- `FdCan::abort` (src/src/tx_rx.rs): instance check, then if a request is
pending write the TXBCR cancel bit, poll TXBCF (long budget), and report
whether the frame escaped transmission (negated TXBTO bit); with nothing
pending, `false` without side effects. -/
def abort (c : FdCanState) (h : Hw) (idx : TxBufferIdx) : Except Error Bool × Hw :=
  if idx.inst ≠ c.inst then
    (.error .WrongInstance, h)
  else if has_pending_frame h idx then
    let h2 := { h with txbcr := fun i => i = idx.idx }
    match checkedWait (fun k => h2.txbcf k idx.idx) c.config.timeout_iterations_long with
    | .error e => (.error e, h2)
    | .ok _ => (.ok (!(h2.txbto idx.idx)), h2)
  else
    (.ok false, h)

/-! ## Ownership manager (src/src/fdcan.rs, src/src/embassy.rs) -/

/-- The three `StaticCell<State>` guards of src/src/embassy.rs, embedded as
take-once flags: `StaticCell::try_init` succeeds exactly once. -/
structure EmbassyCells where
  taken1 : Bool
  taken2 : Bool
  taken3 : Bool
deriving DecidableEq, Repr

/-- `state_fdcan1` (src/src/embassy.rs): first call initializes the cell,
later calls fail with PeripheralTaken. -/
def state_fdcan1 (g : EmbassyCells) : Except Error Unit × EmbassyCells :=
  if g.taken1 then (.error .PeripheralTaken, g)
  else (.ok (), { g with taken1 := true })

/-- `state_fdcan2` (src/src/embassy.rs). -/
def state_fdcan2 (g : EmbassyCells) : Except Error Unit × EmbassyCells :=
  if g.taken2 then (.error .PeripheralTaken, g)
  else (.ok (), { g with taken2 := true })

/-- `state_fdcan3` (src/src/embassy.rs, h7). -/
def state_fdcan3 (g : EmbassyCells) : Except Error Unit × EmbassyCells :=
  if g.taken3 then (.error .PeripheralTaken, g)
  else (.ok (), { g with taken3 := true })

/-- `FdCanInstances` (src/src/fdcan.rs, h7): one slot per channel plus the
RCC handle, of which only the FDCAN clock-enable bit is driven. -/
structure FdCanInstances where
  fdcan1 : Option FdCanState
  fdcan2 : Option FdCanState
  fdcan3 : Option FdCanState
  rcc_fdcanen : Bool

/-- `FdCanInstances::new` (src/src/fdcan.rs, h7 + embassy): acquire the three
embassy state cells (first failure aborts with PeripheralTaken), obtain the
message-RAM builder, clear the RCC clock-enable bit, and populate all three
slots with powered-down channels carrying the default config. -/
def FdCanInstances.new (g : EmbassyCells) :
    Except Error (FdCanInstances × MsgRamBuilder) × EmbassyCells :=
  match state_fdcan1 g with
  | (.error e, g) => (.error e, g)
  | (.ok _, g) =>
    match state_fdcan2 g with
    | (.error e, g) => (.error e, g)
    | (.ok _, g) =>
      match state_fdcan3 g with
      | (.error e, g) => (.error e, g)
      | (.ok _, g) =>
        (.ok ({ fdcan1 := some { inst := .FdCan1, config := FdCanConfig.default,
                                 mode := .PoweredDownMode }
                fdcan2 := some { inst := .FdCan2, config := FdCanConfig.default,
                                 mode := .PoweredDownMode }
                fdcan3 := some { inst := .FdCan3, config := FdCanConfig.default,
                                 mode := .PoweredDownMode }
                rcc_fdcanen := false },
              message_ram_builder), g)

/-- `FdCanInstances::disable` (src/src/fdcan.rs, h7): require every slot
present; only then clear the shared clock-enable bit. -/
def FdCanInstances.disable (s : FdCanInstances) : Except Error Unit × FdCanInstances :=
  let all_present := s.fdcan1.isSome && s.fdcan2.isSome && s.fdcan3.isSome
  if !all_present then
    (.error .MissingInstance, s)
  else
    (.ok (), { s with rcc_fdcanen := false })

/-! ## Concrete fixtures used by witnesses and counterexamples -/

/-- A layout with two dedicated TX buffers of 16-byte elements at word 100. -/
def sampleLayout : MessageRamLayout :=
  { MessageRamLayout.default with
    tx_buffers_addr := 100
    tx_buffers_len := 2
    tx_buffers_data_size := ._16Bytes }

/-- A hardware state whose identity registers match the expected core, whose
polls all succeed immediately, and whose RAM holds the recognizable pattern
`1000 + address`. -/
def sampleHw : Hw :=
  { endn := 0x87654321
    rel := 3
    csr := true
    init := false
    cce := false
    test := false
    mon := false
    lbck := false
    asmb := false
    dar := false
    txp := false
    fdoe := false
    bse := false
    niso := false
    efbi := false
    pxhd := false
    ils := 0
    anfs := 0
    anfe := 0
    rrfs := false
    rrfe := false
    nbtp := { nbrp := 0, ntseg1 := 0, ntseg2 := 0, nsjw := 0 }
    dbtp := { dbrp := 0, dtseg1 := 0, dtseg2 := 0, dsjw := 0 }
    layoutReg := none
    csa := fun _ => false
    initEnter := fun _ => true
    initLeave := fun _ => false
    txbrp := fun _ => false
    txbcf := fun _ _ => false
    txbto := fun _ => false
    txbcr := fun _ => false
    txbar := fun _ => false
    ram := fun i => 1000 + i }

/-- The default configuration with `sampleLayout` installed. -/
def sampleConfig : FdCanConfig :=
  { FdCanConfig.default with layout := sampleLayout }

/-- Channel 1 carrying `sampleConfig`, tagged ConfigMode. -/
def sampleChannel : FdCanState :=
  { inst := .FdCan1, config := sampleConfig, mode := .ConfigMode }

/-- All three channels present, clock enabled. -/
def sampleInstances : FdCanInstances :=
  { fdcan1 := some { inst := .FdCan1, config := FdCanConfig.default, mode := .PoweredDownMode }
    fdcan2 := some { inst := .FdCan2, config := FdCanConfig.default, mode := .PoweredDownMode }
    fdcan3 := some { inst := .FdCan3, config := FdCanConfig.default, mode := .PoweredDownMode }
    rcc_fdcanen := true }

/-! ## Builder step lemmas -/

theorem check_and_advance_ok (maxElements len elementSizeWords : Nat)
    (store : MessageRamLayout → Nat → Nat → MessageRamLayout) (b : MsgRamBuilder)
    (h1 : len ≤ maxElements) (h2 : b.pos + len * elementSizeWords * 4 ≤ b.endW) :
    check_and_advance maxElements len elementSizeWords store b
      = .ok { b with layout := store b.layout b.pos len,
                     pos := b.pos + len * elementSizeWords * 4 } := by
  unfold check_and_advance
  rw [if_neg (by omega)]
  simp only []
  rw [if_neg (by omega)]

theorem check_and_advance_too_many (maxElements len elementSizeWords : Nat)
    (store : MessageRamLayout → Nat → Nat → MessageRamLayout) (b : MsgRamBuilder)
    (h : maxElements < len) :
    check_and_advance maxElements len elementSizeWords store b = .error .TooManyElements := by
  unfold check_and_advance
  rw [if_pos (by omega)]

theorem check_and_advance_oom (maxElements len elementSizeWords : Nat)
    (store : MessageRamLayout → Nat → Nat → MessageRamLayout) (b : MsgRamBuilder)
    (h1 : len ≤ maxElements) (h2 : b.endW < b.pos + len * elementSizeWords * 4) :
    check_and_advance maxElements len elementSizeWords store b = .error .OutOfMemory := by
  unfold check_and_advance
  rw [if_neg (by omega)]
  simp only []
  rw [if_pos (by omega)]

theorem allocate_dedicated_n_ok (n : Nat) :
    ∀ b : MsgRamBuilder, b.layout.tx_buffers_len + n ≤ 32 →
    allocate_dedicated_n n b
      = .ok { b with layout := { b.layout with tx_buffers_len := b.layout.tx_buffers_len + n } } := by
  induction n with
  | zero =>
    intro b h
    simp [allocate_dedicated_n]
  | succ n ih =>
    intro b h
    unfold allocate_dedicated_n allocate_dedicated_tx_buffer
    simp only []
    rw [if_neg (by simp; omega)]
    simp only []
    rw [ih _ (by simp; omega)]
    congr 2
    simp
    omega

set_option maxHeartbeats 1000000 in
/-- Claim C1: for every full allocation sequence (11-bit filters, 29-bit
filters, RX FIFO0, RX FIFO1, RX dedicated buffers, TX event FIFO, TX buffers,
trigger memory) whose per-region counts respect the region maxima and whose
cumulative word usage stays within capacity minus the reserved trailer
(2560 - 4 words on h7), every call succeeds and the resulting
MessageRamLayout assigns the regions contiguous, non-overlapping,
order-preserving address ranges (each region starts exactly where the previous
one ends); a call whose count exceeds the region maximum fails with
TooManyElements, and a call whose advance would exceed capacity fails with
OutOfMemory — in both error cases the call returns only the error, so no
partial mutation of layout or cursor is observable. -/
theorem c1_builder_allocation
    (n11 n29 nf0 nf1 nrb nev nded nfq ntr : Nat)
    (s0 s1 srb stx : DataFieldSize)
    (h11 : n11 ≤ 128) (h29 : n29 ≤ 64) (hf0 : nf0 ≤ 64) (hf1 : nf1 ≤ 64)
    (hrb : nrb ≤ 64) (hev : nev ≤ 32) (htx : nfq + nded ≤ 32) (htr : ntr ≤ 64)
    (hcap : n11 * 1 * 4 + n29 * 2 * 4 + nf0 * (2 + s0.words) * 4
        + nf1 * (2 + s1.words) * 4 + nrb * (2 + srb.words) * 4 + nev * 2 * 4
        + (nfq + nded) * (2 + stx.words) * 4 + ntr * 2 * 4 ≤ 2556) :
    (∃ L b2, fullPass message_ram_builder n11 n29 nf0 s0 nf1 s1 nrb srb nev stx nded nfq ntr
        = .ok (L, b2)
      ∧ L.eleven_bit_filters_addr = 0
      ∧ L.eleven_bit_filters_len = n11
      ∧ L.twenty_nine_bit_filters_addr = L.eleven_bit_filters_addr + n11 * 1 * 4
      ∧ L.twenty_nine_bit_filters_len = n29
      ∧ L.rx_fifo0_addr = L.twenty_nine_bit_filters_addr + n29 * 2 * 4
      ∧ L.rx_fifo0_len = nf0
      ∧ L.rx_fifo1_addr = L.rx_fifo0_addr + nf0 * (2 + s0.words) * 4
      ∧ L.rx_fifo1_len = nf1
      ∧ L.rx_buffers_addr = L.rx_fifo1_addr + nf1 * (2 + s1.words) * 4
      ∧ L.rx_buffers_len = nrb
      ∧ L.tx_event_fifo_addr = L.rx_buffers_addr + nrb * (2 + srb.words) * 4
      ∧ L.tx_event_fifo_len = nev
      ∧ L.tx_buffers_addr = L.tx_event_fifo_addr + nev * 2 * 4
      ∧ L.tx_buffers_len = nfq + nded
      ∧ L.tx_fifo_or_queue_len = nfq
      ∧ L.trigger_memory_addr = L.tx_buffers_addr + (nfq + nded) * (2 + stx.words) * 4
      ∧ L.trigger_memory_len = ntr
      ∧ L.trigger_memory_addr + ntr * 2 * 4 ≤ FDCAN_MSGRAM_LEN_WORDS - 4)
    ∧ (∀ maxElements len elementSizeWords store b, maxElements < len →
        check_and_advance maxElements len elementSizeWords store b
          = .error .TooManyElements)
    ∧ (∀ maxElements len elementSizeWords store b, len ≤ maxElements →
        b.endW < b.pos + len * elementSizeWords * 4 →
        check_and_advance maxElements len elementSizeWords store b
          = .error .OutOfMemory) := by
  refine ⟨?_, check_and_advance_too_many, check_and_advance_oom⟩
  obtain ⟨b1, e1, q1, i1, p1, a1, l1, t1⟩ :
      ∃ x, allocate_11bit_filters message_ram_builder n11 = .ok x
        ∧ x.endW = 2556 ∧ x.inst = some FdCanInstance.FdCan1
        ∧ x.pos = n11 * 1 * 4
        ∧ x.layout.eleven_bit_filters_addr = 0
        ∧ x.layout.eleven_bit_filters_len = n11
        ∧ x.layout.tx_buffers_len = 0 := by
    refine ⟨{ message_ram_builder with
              layout := { message_ram_builder.layout with
                          eleven_bit_filters_addr := message_ram_builder.pos,
                          eleven_bit_filters_len := n11 },
              pos := message_ram_builder.pos + n11 * 1 * 4,
              step := .TwentyNineBitFilters }, ?_, ?_⟩
    · unfold allocate_11bit_filters
      rw [if_neg (by simp [message_ram_builder])]
      rw [check_and_advance_ok _ _ _ _ _ h11
        (by simp [message_ram_builder, FDCAN_MSGRAM_LEN_WORDS]; omega)]
      rfl
    · refine ⟨?_, ?_, ?_, ?_, ?_, ?_⟩ <;>
        simp [message_ram_builder, MessageRamLayout.default, FDCAN_MSGRAM_LEN_WORDS]
  obtain ⟨b2, e2, q2, i2, p2, a1, l1, a2, l2, t2⟩ :
      ∃ x, allocate_29bit_filters b1 n29 = .ok x
        ∧ x.endW = 2556 ∧ x.inst = some FdCanInstance.FdCan1
        ∧ x.pos = n11 * 1 * 4 + n29 * 2 * 4
        ∧ x.layout.eleven_bit_filters_addr = 0
        ∧ x.layout.eleven_bit_filters_len = n11
        ∧ x.layout.twenty_nine_bit_filters_addr = n11 * 1 * 4
        ∧ x.layout.twenty_nine_bit_filters_len = n29
        ∧ x.layout.tx_buffers_len = 0 := by
    refine ⟨{ b1 with
              layout := { b1.layout with
                          twenty_nine_bit_filters_addr := b1.pos,
                          twenty_nine_bit_filters_len := n29 },
              pos := b1.pos + n29 * 2 * 4,
              step := .RxFifo0 }, ?_, ?_⟩
    · unfold allocate_29bit_filters
      rw [check_and_advance_ok _ _ _ _ _ h29 (by omega)]
      rfl
    · refine ⟨?_, ?_, ?_, ?_, ?_, ?_, ?_, ?_⟩ <;> simp [q1, i1, p1, a1, l1, t1] <;> omega
  obtain ⟨b3, e3, q3, i3, p3, a1, l1, a2, l2, a3, l3, t3⟩ :
      ∃ x, allocate_rx_fifo0_buffers b2 nf0 s0 = .ok x
        ∧ x.endW = 2556 ∧ x.inst = some FdCanInstance.FdCan1
        ∧ x.pos = n11 * 1 * 4 + n29 * 2 * 4 + nf0 * (2 + s0.words) * 4
        ∧ x.layout.eleven_bit_filters_addr = 0
        ∧ x.layout.eleven_bit_filters_len = n11
        ∧ x.layout.twenty_nine_bit_filters_addr = n11 * 1 * 4
        ∧ x.layout.twenty_nine_bit_filters_len = n29
        ∧ x.layout.rx_fifo0_addr = n11 * 1 * 4 + n29 * 2 * 4
        ∧ x.layout.rx_fifo0_len = nf0
        ∧ x.layout.tx_buffers_len = 0 := by
    refine ⟨{ b2 with
              layout := { b2.layout with
                          rx_fifo0_addr := b2.pos,
                          rx_fifo0_len := nf0,
                          rx_fifo0_data_size := s0 },
              pos := b2.pos + nf0 * (2 + s0.words) * 4,
              step := .RxFifo1 }, ?_, ?_⟩
    · unfold allocate_rx_fifo0_buffers
      rw [check_and_advance_ok _ _ _ _ _ hf0 (by omega)]
      rfl
    · refine ⟨?_, ?_, ?_, ?_, ?_, ?_, ?_, ?_, ?_, ?_⟩ <;>
        simp [q2, i2, p2, a1, l1, a2, l2, t2] <;> omega
  obtain ⟨b4, e4, q4, i4, p4, a1, l1, a2, l2, a3, l3, a4, l4, t4⟩ :
      ∃ x, allocate_rx_fifo1_buffers b3 nf1 s1 = .ok x
        ∧ x.endW = 2556 ∧ x.inst = some FdCanInstance.FdCan1
        ∧ x.pos = n11 * 1 * 4 + n29 * 2 * 4 + nf0 * (2 + s0.words) * 4
            + nf1 * (2 + s1.words) * 4
        ∧ x.layout.eleven_bit_filters_addr = 0
        ∧ x.layout.eleven_bit_filters_len = n11
        ∧ x.layout.twenty_nine_bit_filters_addr = n11 * 1 * 4
        ∧ x.layout.twenty_nine_bit_filters_len = n29
        ∧ x.layout.rx_fifo0_addr = n11 * 1 * 4 + n29 * 2 * 4
        ∧ x.layout.rx_fifo0_len = nf0
        ∧ x.layout.rx_fifo1_addr = n11 * 1 * 4 + n29 * 2 * 4 + nf0 * (2 + s0.words) * 4
        ∧ x.layout.rx_fifo1_len = nf1
        ∧ x.layout.tx_buffers_len = 0 := by
    refine ⟨{ b3 with
              layout := { b3.layout with
                          rx_fifo1_addr := b3.pos,
                          rx_fifo1_len := nf1,
                          rx_fifo1_data_size := s1 },
              pos := b3.pos + nf1 * (2 + s1.words) * 4,
              step := .RxBuffers }, ?_, ?_⟩
    · unfold allocate_rx_fifo1_buffers
      rw [check_and_advance_ok _ _ _ _ _ hf1 (by omega)]
      rfl
    · refine ⟨?_, ?_, ?_, ?_, ?_, ?_, ?_, ?_, ?_, ?_, ?_, ?_⟩ <;>
        simp [q3, i3, p3, a1, l1, a2, l2, a3, l3, t3] <;> omega
  obtain ⟨b5, e5, q5, i5, p5, a1, l1, a2, l2, a3, l3, a4, l4, a5, l5, t5⟩ :
      ∃ x, allocate_rx_buffers b4 nrb srb = .ok x
        ∧ x.endW = 2556 ∧ x.inst = some FdCanInstance.FdCan1
        ∧ x.pos = n11 * 1 * 4 + n29 * 2 * 4 + nf0 * (2 + s0.words) * 4
            + nf1 * (2 + s1.words) * 4 + nrb * (2 + srb.words) * 4
        ∧ x.layout.eleven_bit_filters_addr = 0
        ∧ x.layout.eleven_bit_filters_len = n11
        ∧ x.layout.twenty_nine_bit_filters_addr = n11 * 1 * 4
        ∧ x.layout.twenty_nine_bit_filters_len = n29
        ∧ x.layout.rx_fifo0_addr = n11 * 1 * 4 + n29 * 2 * 4
        ∧ x.layout.rx_fifo0_len = nf0
        ∧ x.layout.rx_fifo1_addr = n11 * 1 * 4 + n29 * 2 * 4 + nf0 * (2 + s0.words) * 4
        ∧ x.layout.rx_fifo1_len = nf1
        ∧ x.layout.rx_buffers_addr = n11 * 1 * 4 + n29 * 2 * 4 + nf0 * (2 + s0.words) * 4
            + nf1 * (2 + s1.words) * 4
        ∧ x.layout.rx_buffers_len = nrb
        ∧ x.layout.tx_buffers_len = 0 := by
    refine ⟨{ b4 with
              layout := { b4.layout with
                          rx_buffers_addr := b4.pos,
                          rx_buffers_len := nrb,
                          rx_buffers_data_size := srb },
              pos := b4.pos + nrb * (2 + srb.words) * 4,
              step := .TxEventFifo }, ?_, ?_⟩
    · unfold allocate_rx_buffers
      rw [check_and_advance_ok _ _ _ _ _ hrb (by omega)]
      rfl
    · refine ⟨?_, ?_, ?_, ?_, ?_, ?_, ?_, ?_, ?_, ?_, ?_, ?_, ?_, ?_⟩ <;>
        simp [q4, i4, p4, a1, l1, a2, l2, a3, l3, a4, l4, t4] <;> omega
  obtain ⟨b6, e6, q6, i6, p6, a1, l1, a2, l2, a3, l3, a4, l4, a5, l5, a6, l6, t6⟩ :
      ∃ x, allocate_tx_event_fifo_buffers b5 nev = .ok x
        ∧ x.endW = 2556 ∧ x.inst = some FdCanInstance.FdCan1
        ∧ x.pos = n11 * 1 * 4 + n29 * 2 * 4 + nf0 * (2 + s0.words) * 4
            + nf1 * (2 + s1.words) * 4 + nrb * (2 + srb.words) * 4 + nev * 2 * 4
        ∧ x.layout.eleven_bit_filters_addr = 0
        ∧ x.layout.eleven_bit_filters_len = n11
        ∧ x.layout.twenty_nine_bit_filters_addr = n11 * 1 * 4
        ∧ x.layout.twenty_nine_bit_filters_len = n29
        ∧ x.layout.rx_fifo0_addr = n11 * 1 * 4 + n29 * 2 * 4
        ∧ x.layout.rx_fifo0_len = nf0
        ∧ x.layout.rx_fifo1_addr = n11 * 1 * 4 + n29 * 2 * 4 + nf0 * (2 + s0.words) * 4
        ∧ x.layout.rx_fifo1_len = nf1
        ∧ x.layout.rx_buffers_addr = n11 * 1 * 4 + n29 * 2 * 4 + nf0 * (2 + s0.words) * 4
            + nf1 * (2 + s1.words) * 4
        ∧ x.layout.rx_buffers_len = nrb
        ∧ x.layout.tx_event_fifo_addr = n11 * 1 * 4 + n29 * 2 * 4 + nf0 * (2 + s0.words) * 4
            + nf1 * (2 + s1.words) * 4 + nrb * (2 + srb.words) * 4
        ∧ x.layout.tx_event_fifo_len = nev
        ∧ x.layout.tx_buffers_len = 0 := by
    refine ⟨{ b5 with
              layout := { b5.layout with
                          tx_event_fifo_addr := b5.pos,
                          tx_event_fifo_len := nev },
              pos := b5.pos + nev * 2 * 4,
              step := .TxBufferElementSize }, ?_, ?_⟩
    · unfold allocate_tx_event_fifo_buffers
      rw [check_and_advance_ok _ _ _ _ _ hev (by omega)]
      rfl
    · refine ⟨?_, ?_, ?_, ?_, ?_, ?_, ?_, ?_, ?_, ?_, ?_, ?_, ?_, ?_, ?_, ?_⟩ <;>
        simp [q5, i5, p5, a1, l1, a2, l2, a3, l3, a4, l4, a5, l5, t5] <;> omega
  obtain ⟨b7, e7, q7, i7, p7, a1, l1, a2, l2, a3, l3, a4, l4, a5, l5, a6, l6, t7, d7⟩ :
      ∃ x, allocate_dedicated_n nded (tx_buffer_element_size b6 stx) = .ok x
        ∧ x.endW = 2556 ∧ x.inst = some FdCanInstance.FdCan1
        ∧ x.pos = n11 * 1 * 4 + n29 * 2 * 4 + nf0 * (2 + s0.words) * 4
            + nf1 * (2 + s1.words) * 4 + nrb * (2 + srb.words) * 4 + nev * 2 * 4
        ∧ x.layout.eleven_bit_filters_addr = 0
        ∧ x.layout.eleven_bit_filters_len = n11
        ∧ x.layout.twenty_nine_bit_filters_addr = n11 * 1 * 4
        ∧ x.layout.twenty_nine_bit_filters_len = n29
        ∧ x.layout.rx_fifo0_addr = n11 * 1 * 4 + n29 * 2 * 4
        ∧ x.layout.rx_fifo0_len = nf0
        ∧ x.layout.rx_fifo1_addr = n11 * 1 * 4 + n29 * 2 * 4 + nf0 * (2 + s0.words) * 4
        ∧ x.layout.rx_fifo1_len = nf1
        ∧ x.layout.rx_buffers_addr = n11 * 1 * 4 + n29 * 2 * 4 + nf0 * (2 + s0.words) * 4
            + nf1 * (2 + s1.words) * 4
        ∧ x.layout.rx_buffers_len = nrb
        ∧ x.layout.tx_event_fifo_addr = n11 * 1 * 4 + n29 * 2 * 4 + nf0 * (2 + s0.words) * 4
            + nf1 * (2 + s1.words) * 4 + nrb * (2 + srb.words) * 4
        ∧ x.layout.tx_event_fifo_len = nev
        ∧ x.layout.tx_buffers_len = nded
        ∧ x.layout.tx_buffers_data_size = stx := by
    refine ⟨_, allocate_dedicated_n_ok nded _ (by simp [tx_buffer_element_size]; omega), ?_⟩
    refine ⟨?_, ?_, ?_, ?_, ?_, ?_, ?_, ?_, ?_, ?_, ?_, ?_, ?_, ?_, ?_, ?_, ?_⟩ <;>
      simp [tx_buffer_element_size, q6, i6, p6, a1, l1, a2, l2, a3, l3, a4, l4, a5, l5, a6, l6, t6]
  obtain ⟨b8, e8, q8, i8, p8, a1, l1, a2, l2, a3, l3, a4, l4, a5, l5, a6, l6, a7, l7, f7⟩ :
      ∃ x, allocate_fifo_or_queue b7 nfq = .ok x
        ∧ x.endW = 2556 ∧ x.inst = some FdCanInstance.FdCan1
        ∧ x.pos = n11 * 1 * 4 + n29 * 2 * 4 + nf0 * (2 + s0.words) * 4
            + nf1 * (2 + s1.words) * 4 + nrb * (2 + srb.words) * 4 + nev * 2 * 4
            + (nfq + nded) * (2 + stx.words) * 4
        ∧ x.layout.eleven_bit_filters_addr = 0
        ∧ x.layout.eleven_bit_filters_len = n11
        ∧ x.layout.twenty_nine_bit_filters_addr = n11 * 1 * 4
        ∧ x.layout.twenty_nine_bit_filters_len = n29
        ∧ x.layout.rx_fifo0_addr = n11 * 1 * 4 + n29 * 2 * 4
        ∧ x.layout.rx_fifo0_len = nf0
        ∧ x.layout.rx_fifo1_addr = n11 * 1 * 4 + n29 * 2 * 4 + nf0 * (2 + s0.words) * 4
        ∧ x.layout.rx_fifo1_len = nf1
        ∧ x.layout.rx_buffers_addr = n11 * 1 * 4 + n29 * 2 * 4 + nf0 * (2 + s0.words) * 4
            + nf1 * (2 + s1.words) * 4
        ∧ x.layout.rx_buffers_len = nrb
        ∧ x.layout.tx_event_fifo_addr = n11 * 1 * 4 + n29 * 2 * 4 + nf0 * (2 + s0.words) * 4
            + nf1 * (2 + s1.words) * 4 + nrb * (2 + srb.words) * 4
        ∧ x.layout.tx_event_fifo_len = nev
        ∧ x.layout.tx_buffers_addr = n11 * 1 * 4 + n29 * 2 * 4 + nf0 * (2 + s0.words) * 4
            + nf1 * (2 + s1.words) * 4 + nrb * (2 + srb.words) * 4 + nev * 2 * 4
        ∧ x.layout.tx_buffers_len = nfq + nded
        ∧ x.layout.tx_fifo_or_queue_len = nfq := by
    refine ⟨{ b7 with
              layout := { b7.layout with
                          tx_buffers_addr := b7.pos,
                          tx_buffers_len := nfq + b7.layout.tx_buffers_len,
                          tx_fifo_or_queue_len := nfq },
              pos := b7.pos + (nfq + b7.layout.tx_buffers_len)
                  * (2 + b7.layout.tx_buffers_data_size.words) * 4,
              step := .TriggerMemory }, ?_, ?_⟩
    · unfold allocate_fifo_or_queue
      simp only []
      rw [check_and_advance_ok _ _ _ _ _ (by rw [t7]; omega) (by rw [t7, d7]; omega)]
      rfl
    · refine ⟨?_, ?_, ?_, ?_, ?_, ?_, ?_, ?_, ?_, ?_, ?_, ?_, ?_, ?_, ?_, ?_, ?_, ?_⟩ <;>
        simp [q7, i7, p7, a1, l1, a2, l2, a3, l3, a4, l4, a5, l5, a6, l6, t7, d7]
  obtain ⟨L, b9, e9, hA1, hL1, hA2, hL2, hA3, hL3, hA4, hL4, hA5, hL5, hA6, hL6, hA7, hL7, hF7, hA8, hL8⟩ :
      ∃ L x, allocate_triggers b8 ntr = .ok (L, x)
        ∧ L.eleven_bit_filters_addr = 0
        ∧ L.eleven_bit_filters_len = n11
        ∧ L.twenty_nine_bit_filters_addr = n11 * 1 * 4
        ∧ L.twenty_nine_bit_filters_len = n29
        ∧ L.rx_fifo0_addr = n11 * 1 * 4 + n29 * 2 * 4
        ∧ L.rx_fifo0_len = nf0
        ∧ L.rx_fifo1_addr = n11 * 1 * 4 + n29 * 2 * 4 + nf0 * (2 + s0.words) * 4
        ∧ L.rx_fifo1_len = nf1
        ∧ L.rx_buffers_addr = n11 * 1 * 4 + n29 * 2 * 4 + nf0 * (2 + s0.words) * 4
            + nf1 * (2 + s1.words) * 4
        ∧ L.rx_buffers_len = nrb
        ∧ L.tx_event_fifo_addr = n11 * 1 * 4 + n29 * 2 * 4 + nf0 * (2 + s0.words) * 4
            + nf1 * (2 + s1.words) * 4 + nrb * (2 + srb.words) * 4
        ∧ L.tx_event_fifo_len = nev
        ∧ L.tx_buffers_addr = n11 * 1 * 4 + n29 * 2 * 4 + nf0 * (2 + s0.words) * 4
            + nf1 * (2 + s1.words) * 4 + nrb * (2 + srb.words) * 4 + nev * 2 * 4
        ∧ L.tx_buffers_len = nfq + nded
        ∧ L.tx_fifo_or_queue_len = nfq
        ∧ L.trigger_memory_addr = n11 * 1 * 4 + n29 * 2 * 4 + nf0 * (2 + s0.words) * 4
            + nf1 * (2 + s1.words) * 4 + nrb * (2 + srb.words) * 4 + nev * 2 * 4
            + (nfq + nded) * (2 + stx.words) * 4
        ∧ L.trigger_memory_len = ntr := by
    refine ⟨{ b8.layout with trigger_memory_addr := b8.pos, trigger_memory_len := ntr },
            { b8 with
              layout := { b8.layout with
                          trigger_memory_addr := b8.pos,
                          trigger_memory_len := ntr },
              pos := b8.pos + ntr * 2 * 4,
              inst := some FdCanInstance.FdCan2,
              step := .ElevenBitFilters }, ?_, ?_⟩
    · unfold allocate_triggers
      rw [check_and_advance_ok _ _ _ _ _ htr (by omega)]
      simp [Except.map, expectInstance, i8]
    · refine ⟨?_, ?_, ?_, ?_, ?_, ?_, ?_, ?_, ?_, ?_, ?_, ?_, ?_, ?_, ?_, ?_, ?_⟩ <;>
        simp [p8, a1, l1, a2, l2, a3, l3, a4, l4, a5, l5, a6, l6, a7, l7, f7]
  have efull : fullPass message_ram_builder n11 n29 nf0 s0 nf1 s1 nrb srb nev stx nded nfq ntr
      = .ok (L, b9) := by
    simp only [fullPass, e1, e2, e3, e4, e5, e6, e7, e8, e9]
  exact ⟨L, b9, efull, hA1, hL1,
    by rw [hA2, hA1, Nat.zero_add], hL2,
    by rw [hA3, hA2], hL3,
    by rw [hA4, hA3], hL4,
    by rw [hA5, hA4], hL5,
    by rw [hA6, hA5], hL6,
    by rw [hA7, hA6], hL7, hF7,
    by rw [hA8, hA7], hL8,
    by rw [hA8]; simp only [FDCAN_MSGRAM_LEN_WORDS]; omega⟩

/-- Witness for C1: a concrete in-bounds allocation sequence (the shape of
`basic_layout` plus one dedicated TX buffer) succeeds. -/
theorem c1_builder_allocation_witness :
    ∃ L b2, fullPass message_ram_builder 1 1 1 DataFieldSize._64Bytes 0 DataFieldSize._64Bytes
      0 DataFieldSize._64Bytes 1 DataFieldSize._64Bytes 1 1 0 = .ok (L, b2) := by
  obtain ⟨⟨L, b2, h, _⟩, _, _⟩ :=
    c1_builder_allocation 1 1 1 0 0 1 1 1 0 ._64Bytes ._64Bytes ._64Bytes ._64Bytes
      (by norm_num) (by norm_num) (by norm_num) (by norm_num) (by norm_num) (by norm_num)
      (by norm_num) (by norm_num) (by decide)
  exact ⟨L, b2, h⟩

/-- Claim C2: a TxBufferIdx whose owning channel identity differs from the
channel a transport operation is invoked on fails with WrongInstance — for
both `write_tx_buffer_pend` and `abort`, with no hardware side effect — and
this holds regardless of whether the slot index would be in range. -/
theorem c2_wrong_instance (c : FdCanState) (h : Hw) (idx : TxBufferIdx)
    (hdr : TxFrameHeader) (data : List Nat) (hne : idx.inst ≠ c.inst) :
    write_tx_buffer_pend c h idx hdr data = (.error .WrongInstance, h)
    ∧ abort c h idx = (.error .WrongInstance, h) := by
  constructor
  · unfold write_tx_buffer_pend tx_buffer
    rw [if_pos hne]
  · unfold abort
    rw [if_pos hne]

/-- Witness for C2: a handle from channel 2 with an in-range slot index,
used on channel 1. -/
theorem c2_wrong_instance_witness :
    write_tx_buffer_pend sampleChannel sampleHw { inst := .FdCan2, idx := 0 }
        { t0word := 0, t1rest := 0 } [1, 2, 3, 4]
      = (.error Error.WrongInstance, sampleHw)
    ∧ abort sampleChannel sampleHw { inst := .FdCan2, idx := 0 }
      = (.error Error.WrongInstance, sampleHw) :=
  c2_wrong_instance sampleChannel sampleHw { inst := .FdCan2, idx := 0 }
    { t0word := 0, t1rest := 0 } [1, 2, 3, 4] (by decide)

/-- Claim C5 (counterexample): the claim expects nominal timing
{prescaler = 1, seg1 = 11, seg2 = 4, sjw = 4} to program register values
{nbrp = 0, ntseg1 = 11, ntseg2 = 3, nsjw = 3}, i.e. no off-by-one on NTSEG1;
the code subtracts one from NTSEG1 like every other field, writing 10. -/
theorem c5_nominal_timing_counterexample :
    ¬ ((set_nominal_bit_timing sampleChannel sampleHw
        { prescaler := 1, seg1 := 11, seg2 := 4, sync_jump_width := 4 }).2.nbtp
      = { nbrp := 0, ntseg1 := 11, ntseg2 := 3, nsjw := 3 }) := by
  decide

/-- Claim C5 (amended): programming nominal timing
{prescaler = 1, seg1 = 11, seg2 = 4, sjw = 4} writes register fields
{nbrp = 0, ntseg1 = 10, ntseg2 = 3, nsjw = 3} — every field, NTSEG1
included, is one less than the stored 1-based quantum count. -/
theorem c5_nominal_timing_amended :
    (set_nominal_bit_timing sampleChannel sampleHw
        { prescaler := 1, seg1 := 11, seg2 := 4, sync_jump_width := 4 }).2.nbtp
      = { nbrp := 0, ntseg1 := 10, ntseg2 := 3, nsjw := 3 } := by
  decide

/-- Claim C7: under the embassy + h7 configuration, the entry point that
yields the whole-RAM builder (`FdCanInstances::new`) succeeds on the first
call — handing out the initial builder and all three powered-down channels
with the clock-enable bit cleared — and every call made after a successful
one fails with PeripheralTaken, leaving the guard set so all later calls keep
failing. -/
theorem c7_single_owner :
    (FdCanInstances.new { taken1 := false, taken2 := false, taken3 := false }
      = (.ok ({ fdcan1 := some { inst := .FdCan1, config := FdCanConfig.default,
                                 mode := .PoweredDownMode }
                fdcan2 := some { inst := .FdCan2, config := FdCanConfig.default,
                                 mode := .PoweredDownMode }
                fdcan3 := some { inst := .FdCan3, config := FdCanConfig.default,
                                 mode := .PoweredDownMode }
                rcc_fdcanen := false }, message_ram_builder),
         { taken1 := true, taken2 := true, taken3 := true }))
    ∧ (∀ g : EmbassyCells, g.taken1 = true →
        FdCanInstances.new g = (.error .PeripheralTaken, g)) := by
  constructor
  · rfl
  · intro g hg
    unfold FdCanInstances.new state_fdcan1
    simp [hg]

/-- Witness for C7: the state after the first call rejects a second call. -/
theorem c7_single_owner_witness :
    FdCanInstances.new { taken1 := true, taken2 := true, taken3 := true }
      = (.error Error.PeripheralTaken, { taken1 := true, taken2 := true, taken3 := true }) :=
  (c7_single_owner).2 { taken1 := true, taken2 := true, taken3 := true } rfl

/-- Evaluation of a successful `allocate_triggers` call: layout finalized,
cursor advanced, instance stepped round-robin, step back to the start. -/
theorem allocate_triggers_ok (b : MsgRamBuilder) (len : Nat) (i : FdCanInstance)
    (hi : b.inst = some i) (hlen : len ≤ 64) (hcap : b.pos + len * 2 * 4 ≤ b.endW) :
    allocate_triggers b len
      = .ok ({ b.layout with
               trigger_memory_addr := b.pos
               trigger_memory_len := len },
             { b with
               layout := { b.layout with
                           trigger_memory_addr := b.pos
                           trigger_memory_len := len }
               pos := b.pos + len * 2 * 4
               inst := (match i with
                        | .FdCan1 => some .FdCan2
                        | .FdCan2 => some .FdCan3
                        | .FdCan3 => none)
               step := .ElevenBitFilters }) := by
  unfold allocate_triggers
  rw [check_and_advance_ok _ _ _ _ _ hlen hcap]
  simp [Except.map, expectInstance, hi]
  cases i <;> rfl

/-- Claim C8: a successful `allocate_triggers` returns the finalized layout
together with a builder back at the first step (ElevenBitFilters), its
channel identity advanced round-robin FdCan1 -> FdCan2 -> FdCan3; once the
last channel's pass completes the identity is exhausted (none), and the
first allocation step of any further pass fails with TooManyInstances. -/
theorem c8_round_robin :
    (∀ (b : MsgRamBuilder) (len : Nat) (i : FdCanInstance),
      b.inst = some i → b.step = .TriggerMemory → len ≤ 64 →
      b.pos + len * 2 * 4 ≤ b.endW →
      ∃ L b2, allocate_triggers b len = .ok (L, b2)
        ∧ L = { b.layout with trigger_memory_addr := b.pos, trigger_memory_len := len }
        ∧ b2.step = BuilderStep.ElevenBitFilters
        ∧ (i = .FdCan1 → b2.inst = some .FdCan2)
        ∧ (i = .FdCan2 → b2.inst = some .FdCan3)
        ∧ (i = .FdCan3 → b2.inst = none))
    ∧ (∀ (b : MsgRamBuilder) (len : Nat), b.inst = none →
        allocate_11bit_filters b len = .error .TooManyInstances) := by
  constructor
  · intro b len i hi hstep hlen hcap
    refine ⟨_, _, allocate_triggers_ok b len i hi hlen hcap, rfl, rfl, ?_, ?_, ?_⟩ <;>
      (intro hh; subst hh; rfl)
  · intro b len hb
    unfold allocate_11bit_filters
    simp [hb]

/-- Witness for C8: channel 1's pass ends, the next builder is at the first
step for channel 2; a builder with exhausted identity is rejected. -/
theorem c8_round_robin_witness :
    (∃ L b2, allocate_triggers { message_ram_builder with step := BuilderStep.TriggerMemory } 0
        = .ok (L, b2) ∧ b2.inst = some FdCanInstance.FdCan2)
    ∧ allocate_11bit_filters { message_ram_builder with inst := none } 1
      = .error MessageRamBuilderError.TooManyInstances := by
  constructor
  · obtain ⟨L, b2, he, _, _, h1, _, _⟩ :=
      (c8_round_robin).1 { message_ram_builder with step := .TriggerMemory } 0 .FdCan1 rfl rfl
        (by norm_num) (by simp [message_ram_builder, FDCAN_MSGRAM_LEN_WORDS])
    exact ⟨L, b2, he, h1 rfl⟩
  · exact (c8_round_robin).2 { message_ram_builder with inst := none } 1 rfl

/-- Claim C9: `disable` requires every channel slot occupied — if any slot is
checked out it fails with MissingInstance and leaves the state (including the
shared clock-enable bit) unchanged; with all slots present it clears the
clock-enable bit and succeeds. -/
theorem c9_disable (s : FdCanInstances) :
    ((s.fdcan1 = none ∨ s.fdcan2 = none ∨ s.fdcan3 = none) →
      FdCanInstances.disable s = (.error .MissingInstance, s))
    ∧ (s.fdcan1.isSome → s.fdcan2.isSome → s.fdcan3.isSome →
      FdCanInstances.disable s = (.ok (), { s with rcc_fdcanen := false })) := by
  constructor
  · intro hmiss
    unfold FdCanInstances.disable
    rcases hmiss with hh | hh | hh <;> simp [hh]
  · intro h1 h2 h3
    unfold FdCanInstances.disable
    simp [h1, h2, h3]

/-- Witness for C9: disabling with all channels returned clears the bit; a
missing channel 2 is rejected with the state unchanged. -/
theorem c9_disable_witness :
    FdCanInstances.disable sampleInstances
        = (.ok (), { sampleInstances with rcc_fdcanen := false })
    ∧ FdCanInstances.disable { sampleInstances with fdcan2 := none }
        = (.error Error.MissingInstance, { sampleInstances with fdcan2 := none }) :=
  ⟨(c9_disable sampleInstances).2 rfl rfl rfl,
   (c9_disable { sampleInstances with fdcan2 := none }).1 (Or.inr (Or.inl rfl))⟩

/-! ## checked_wait characterization -/

theorem checkedWaitFrom_timeout_of (f : Nat → Bool) :
    ∀ r i, (∀ j, j ≤ r → f (i + j) = true) → checkedWaitFrom f r i = .error .Timeout := by
  intro r
  induction r with
  | zero =>
    intro i hall
    unfold checkedWaitFrom
    rw [if_pos (by simpa using hall 0 (Nat.le_refl 0))]
  | succ r ih =>
    intro i hall
    unfold checkedWaitFrom
    rw [if_pos (by simpa using hall 0 (by omega))]
    exact ih (i + 1) (fun j hj => by
      have hh := hall (j + 1) (by omega)
      rwa [show i + (j + 1) = i + 1 + j by omega] at hh)

theorem checkedWaitFrom_all_true_of_timeout (f : Nat → Bool) :
    ∀ r i, checkedWaitFrom f r i = .error .Timeout → ∀ j, j ≤ r → f (i + j) = true := by
  intro r
  induction r with
  | zero =>
    intro i he j hj
    unfold checkedWaitFrom at he
    by_cases hf : f i
    · have hj0 : j = 0 := by omega
      subst hj0
      simpa using hf
    · rw [if_neg hf] at he
      exact absurd he (by simp)
  | succ r ih =>
    intro i he j hj
    unfold checkedWaitFrom at he
    by_cases hf : f i
    · rw [if_pos hf] at he
      match j with
      | 0 => simpa using hf
      | j + 1 =>
        have hh := ih (i + 1) he j (by omega)
        rwa [show i + 1 + j = i + (j + 1) by omega] at hh
    · rw [if_neg hf] at he
      exact absurd he (by simp)

theorem checkedWaitFrom_dichotomy (f : Nat → Bool) :
    ∀ r i, checkedWaitFrom f r i = .ok () ∨ checkedWaitFrom f r i = .error .Timeout := by
  intro r
  induction r with
  | zero =>
    intro i
    unfold checkedWaitFrom
    by_cases hf : f i
    · rw [if_pos hf]
      exact Or.inr rfl
    · rw [if_neg hf]
      exact Or.inl rfl
  | succ r ih =>
    intro i
    unfold checkedWaitFrom
    by_cases hf : f i
    · rw [if_pos hf]
      exact ih (i + 1)
    · rw [if_neg hf]
      exact Or.inl rfl

theorem checkedWait_timeout_iff (f : Nat → Bool) (t : Nat) (ht : 1 ≤ t) :
    checkedWait f t = .error .Timeout ↔ ∀ k, k < t → f k = true := by
  unfold checkedWait
  constructor
  · intro he k hk
    have hh := checkedWaitFrom_all_true_of_timeout f (t - 1) 0 he k (by omega)
    simpa using hh
  · intro hall
    exact checkedWaitFrom_timeout_of f (t - 1) 0 (fun j hj => by simpa using hall j (by omega))

theorem checkedWait_ok_of_not (f : Nat → Bool) (t : Nat) (ht : 1 ≤ t)
    (hno : ¬ (∀ k, k < t → f k = true)) : checkedWait f t = .ok () := by
  rcases checkedWaitFrom_dichotomy f (t - 1) 0 with hh | hh
  · exact hh
  · exact absurd ((checkedWait_timeout_iff f t ht).1 hh) hno

/-- Claim C3: each Config-exit transition (into_normal,
into_internal_loopback, into_external_loopback, into_restricted,
into_bus_monitoring, into_test_mode) has exactly two outcomes, decided by the
bounded init-exit poll: if the poll exhausts the short budget (INIT reads set
at every iteration) the call returns the Timeout error paired with the
original still-Config-tagged value, and otherwise it returns the value
re-tagged with the destination mode — in both cases the caller keeps the
channel. -/
theorem c3_config_exit (c : FdCanState) (h : Hw)
    (hmode : c.mode = Mode.ConfigMode)
    (hpos : 1 ≤ c.config.timeout_iterations_short) :
    ((∀ k, k < c.config.timeout_iterations_short → h.initLeave k = true) →
      (into_normal c h).1 = .error (.Timeout, c)
      ∧ (into_internal_loopback c h).1 = .error (.Timeout, c)
      ∧ (into_external_loopback c h).1 = .error (.Timeout, c)
      ∧ (into_restricted c h).1 = .error (.Timeout, c)
      ∧ (into_bus_monitoring c h).1 = .error (.Timeout, c)
      ∧ (into_test_mode c h).1 = .error (.Timeout, c))
    ∧ (¬ (∀ k, k < c.config.timeout_iterations_short → h.initLeave k = true) →
      (into_normal c h).1 = .ok { c with mode := .NormalOperationMode }
      ∧ (into_internal_loopback c h).1 = .ok { c with mode := .InternalLoopbackMode }
      ∧ (into_external_loopback c h).1 = .ok { c with mode := .ExternalLoopbackMode }
      ∧ (into_restricted c h).1 = .ok { c with mode := .RestrictedOperationMode }
      ∧ (into_bus_monitoring c h).1 = .ok { c with mode := .BusMonitoringMode }
      ∧ (into_test_mode c h).1 = .ok { c with mode := .TestMode })
    := by
  constructor
  · intro hall
    have hcw : checkedWait (fun k => h.initLeave k) c.config.timeout_iterations_short
        = .error .Timeout := (checkedWait_timeout_iff _ _ hpos).2 hall
    refine ⟨?_, ?_, ?_, ?_, ?_, ?_⟩ <;>
      simp [into_normal, into_internal_loopback, into_external_loopback, into_restricted,
        into_bus_monitoring, into_test_mode, set_normal_operations, set_loopback_mode,
        set_test_mode, set_bus_monitoring_mode, set_restricted_operations, leave_init_mode,
        apply_config, set_data_bit_timing, set_nominal_bit_timing, hcw]
  · intro hno
    have hcw : checkedWait (fun k => h.initLeave k) c.config.timeout_iterations_short
        = .ok () := checkedWait_ok_of_not _ _ hpos hno
    refine ⟨?_, ?_, ?_, ?_, ?_, ?_⟩ <;>
      simp [into_normal, into_internal_loopback, into_external_loopback, into_restricted,
        into_bus_monitoring, into_test_mode, set_normal_operations, set_loopback_mode,
        set_test_mode, set_bus_monitoring_mode, set_restricted_operations, leave_init_mode,
        apply_config, set_data_bit_timing, set_nominal_bit_timing, hcw]

/-- Witness for C3: with an immediately clearing INIT bit, into_normal
re-tags the sample ConfigMode channel as NormalOperationMode. -/
theorem c3_config_exit_witness :
    (into_normal sampleChannel sampleHw).1
      = .ok { sampleChannel with mode := Mode.NormalOperationMode } := by
  have hh := c3_config_exit sampleChannel sampleHw rfl (by norm_num [sampleChannel, sampleConfig, FdCanConfig.default])
  exact (hh.2 (fun hall => by have h0 := hall 0 (by norm_num [sampleChannel, sampleConfig, FdCanConfig.default]); simp [sampleHw] at h0)).1

/-- Claim C4: the PoweredDown-to-Config transition checks, in this order: the
endianness-test register against the fixed sentinel 0x87654321
(CoreCommunicationFailed on mismatch, regardless of anything else); the core
revision against 3 (UnsupportedCoreVersion); then clears the clock-stop
request and polls clock-stop-acknowledge under the long budget (Timeout on
exhaustion, with only CSR written); then requests init and polls under the
short budget (Timeout, with CSR and INIT written); and finally writes zero to
every word of the message RAM, returning the Config-tagged value.  Every
failure returns the original PoweredDown-tagged value with the error. -/
theorem c4_powered_down_to_config (c : FdCanState) (h : Hw)
    (hmode : c.mode = Mode.PoweredDownMode)
    (hlong : 1 ≤ c.config.timeout_iterations_long)
    (hshort : 1 ≤ c.config.timeout_iterations_short) :
    (h.endn ≠ 0x87654321 →
      into_config_mode c h = (.error (.CoreCommunicationFailed, c), h))
    ∧ (h.endn = 0x87654321 → h.rel ≠ 3 →
      into_config_mode c h = (.error (.UnsupportedCoreVersion, c), h))
    ∧ (h.endn = 0x87654321 → h.rel = 3 →
      (∀ k, k < c.config.timeout_iterations_long → h.csa k = true) →
      into_config_mode c h = (.error (.Timeout, c), { h with csr := false }))
    ∧ (h.endn = 0x87654321 → h.rel = 3 →
      ¬ (∀ k, k < c.config.timeout_iterations_long → h.csa k = true) →
      (∀ k, k < c.config.timeout_iterations_short → h.initEnter k = false) →
      into_config_mode c h = (.error (.Timeout, c), { h with csr := false, init := true }))
    ∧ (h.endn = 0x87654321 → h.rel = 3 →
      ¬ (∀ k, k < c.config.timeout_iterations_long → h.csa k = true) →
      ¬ (∀ k, k < c.config.timeout_iterations_short → h.initEnter k = false) →
      into_config_mode c h
        = (.ok { c with mode := .ConfigMode },
           { h with csr := false, init := true, cce := true,
                    ram := fun i => if i < FDCAN_MSGRAM_LEN_WORDS then 0 else h.ram i }))
    := by
  refine ⟨?_, ?_, ?_, ?_, ?_⟩
  · intro hendn
    simp [into_config_mode, try_config_mode, check_core, hendn]
  · intro hendn hrel
    simp [into_config_mode, try_config_mode, check_core, hendn, hrel]
  · intro hendn hrel hcsa
    have hcw : checkedWait (fun k => h.csa k) c.config.timeout_iterations_long
        = .error .Timeout := (checkedWait_timeout_iff _ _ hlong).2 hcsa
    simp [into_config_mode, try_config_mode, check_core, set_power_down_mode, hendn, hrel, hcw]
  · intro hendn hrel hcsa hinit
    have hcw : checkedWait (fun k => h.csa k) c.config.timeout_iterations_long
        = .ok () := checkedWait_ok_of_not _ _ hlong hcsa
    have hcw2 : checkedWait (fun k => !(h.initEnter k)) c.config.timeout_iterations_short
        = .error .Timeout :=
      (checkedWait_timeout_iff _ _ hshort).2 (fun k hk => by simp [hinit k hk])
    simp [into_config_mode, try_config_mode, check_core, set_power_down_mode,
      enter_init_mode, hendn, hrel, hcw, hcw2]
  · intro hendn hrel hcsa hinit
    have hcw : checkedWait (fun k => h.csa k) c.config.timeout_iterations_long
        = .ok () := checkedWait_ok_of_not _ _ hlong hcsa
    have hcw2 : checkedWait (fun k => !(h.initEnter k)) c.config.timeout_iterations_short
        = .ok () := by
      refine checkedWait_ok_of_not _ _ hshort (fun hall => hinit (fun k hk => ?_))
      have hh := hall k hk
      simpa using hh
    simp [into_config_mode, try_config_mode, check_core, set_power_down_mode,
      enter_init_mode, zero_msg_ram, hendn, hrel, hcw, hcw2]

/-- Witness for C4: on a healthy core with immediate poll acknowledgement the
sample powered-down channel reaches ConfigMode with the RAM zeroed. -/
theorem c4_powered_down_to_config_witness :
    into_config_mode { sampleChannel with mode := Mode.PoweredDownMode } sampleHw
      = (.ok { sampleChannel with mode := Mode.ConfigMode },
         { sampleHw with csr := false, init := true, cce := true,
                         ram := fun i => if i < FDCAN_MSGRAM_LEN_WORDS then 0
                                         else sampleHw.ram i }) := by
  have hh := c4_powered_down_to_config { sampleChannel with mode := Mode.PoweredDownMode }
    sampleHw rfl
    (by norm_num [sampleChannel, sampleConfig, FdCanConfig.default])
    (by norm_num [sampleChannel, sampleConfig, FdCanConfig.default])
  have hres := hh.2.2.2.2 rfl rfl
    (fun hall => by have h0 := hall 0 (by norm_num [sampleChannel, sampleConfig, FdCanConfig.default]); simp [sampleHw] at h0)
    (fun hall => by have h0 := hall 0 (by norm_num [sampleChannel, sampleConfig, FdCanConfig.default]); simp [sampleHw] at h0)
  exact hres

/-! ## Transport lemmas -/

theorem Dlc.from_len_len : ∀ (n : Nat) (d : Dlc), Dlc.from_len n = some d → d.len = n := by
  intro n d hd
  unfold Dlc.from_len at hd
  split at hd <;> first
  | (cases hd; rfl)
  | simp at hd

theorem DataFieldSize.max_len_div (s : DataFieldSize) : (s.max_len + 3) / 4 = s.words := by
  cases s <;> rfl

theorem write_tx_buffer_pend_ok (c : FdCanState) (h : Hw) (idx : TxBufferIdx)
    (hdr : TxFrameHeader) (data : List Nat) (dlc : Dlc)
    (hinst : idx.inst = c.inst) (hidx : idx.idx < c.config.layout.tx_buffers_len)
    (hdlc : Dlc.from_len data.length = some dlc)
    (hmax : dlc.len ≤ c.config.layout.tx_buffers_data_size.max_len) :
    write_tx_buffer_pend c h idx hdr data
      = (.ok (), { h with
          ram := packPayload (fill h.ram (c.config.layout.tx_buffers_addr + idx.idx) hdr dlc)
                   (c.config.layout.tx_buffers_addr + idx.idx + 2)
                   c.config.layout.tx_buffers_data_size.words data
          txbar := fun i => if i = idx.idx then true else h.txbar i }) := by
  unfold write_tx_buffer_pend tx_buffer
  rw [if_neg (by simp [hinst]), if_neg (by omega)]
  simp only []
  rw [hdlc]
  simp only []
  rw [if_neg (by omega)]

theorem packPayload_lt : ∀ (w : Nat) (data : List Nat) (ram : Nat → Nat) (base a : Nat),
    a < base → packPayload ram base w data a = ram a := by
  intro w
  induction w with
  | zero =>
    intro data ram base a ha
    simp [packPayload]
  | succ w ih =>
    intro data ram base a ha
    cases data with
    | nil => simp [packPayload]
    | cons b rest =>
      simp only [packPayload]
      rw [ih _ _ _ _ (by omega)]
      unfold wupd
      rw [if_neg (by omega)]

theorem packPayload_written : ∀ (w j : Nat) (data : List Nat) (ram : Nat → Nat) (base : Nat),
    j < w → 4 * j < data.length →
    packPayload ram base w data (base + j) = leWord ((data.drop (4 * j)).take 4) := by
  intro w
  induction w with
  | zero =>
    intro j data ram base hjw hjd
    omega
  | succ w ih =>
    intro j data ram base hjw hjd
    cases data with
    | nil => simp at hjd
    | cons b rest =>
      match j with
      | 0 =>
        simp only [packPayload]
        rw [packPayload_lt w _ _ _ _ (by omega)]
        simp [wupd]
      | j + 1 =>
        simp only [packPayload]
        have hh := ih j ((b :: rest).drop 4) (wupd ram base (leWord ((b :: rest).take 4)))
          (base + 1) (by omega)
          (by
            simp only [List.length_drop, List.length_cons]
            simp only [List.length_cons] at hjd
            omega)
        have hd : ((b :: rest).drop 4).drop (4 * j) = (b :: rest).drop (4 * (j + 1)) := by
          rw [List.drop_drop]
          congr 1
          omega
        rw [show base + (j + 1) = base + 1 + j by omega, hh, hd]

theorem packPayload_ge : ∀ (w : Nat) (data : List Nat) (ram : Nat → Nat) (base a : Nat),
    base + min w ((data.length + 3) / 4) ≤ a → packPayload ram base w data a = ram a := by
  intro w
  induction w with
  | zero =>
    intro data ram base a ha
    simp [packPayload]
  | succ w ih =>
    intro data ram base a ha
    cases data with
    | nil => simp [packPayload]
    | cons b rest =>
      simp only [packPayload]
      have hlen : ((b :: rest).drop 4).length = (b :: rest).length - 4 := by
        simp [List.length_drop]
      have hab : base + 1 + min w ((((b :: rest).drop 4).length + 3) / 4) ≤ a := by
        rw [hlen]
        simp only [List.length_cons] at ha ⊢
        omega
      rw [ih _ _ _ _ hab]
      unfold wupd
      rw [if_neg (by simp only [List.length_cons] at ha; omega)]

/-- Claim C6 (counterexample): the claim expects a 10-byte payload on a
channel with a 16-byte TX data field to succeed via rounding up to the next
DLC step; in the code `Dlc::from_len(10)` is `None` — lengths are not rounded
— so the call fails with WrongDataSize. -/
theorem c6_rounding_counterexample :
    (write_tx_buffer_pend { sampleChannel with mode := Mode.NormalOperationMode } sampleHw
        { inst := .FdCan1, idx := 0 } { t0word := 0, t1rest := 0 }
        [0, 1, 2, 3, 4, 5, 6, 7, 8, 9]).1
      = .error Error.WrongDataSize := by
  rfl

/-- Claim C6 (amended): a 10-byte payload fails `write_tx_buffer_pend` with
WrongDataSize on every configured TX data field size — 8 bytes and 16 bytes
alike — because only payload lengths exactly equal to a DLC step are
accepted (no rounding up); a payload whose length is an exact step within the
field size, e.g. 12 bytes against a 16-byte field, succeeds. -/
theorem c6_exact_dlc_steps :
    (∀ (c : FdCanState) (h : Hw) (idx : TxBufferIdx) (hdr : TxFrameHeader) (data : List Nat),
      idx.inst = c.inst → idx.idx < c.config.layout.tx_buffers_len → data.length = 10 →
      write_tx_buffer_pend c h idx hdr data = (.error .WrongDataSize, h))
    ∧ (write_tx_buffer_pend { sampleChannel with mode := Mode.NormalOperationMode } sampleHw
        { inst := .FdCan1, idx := 0 } { t0word := 0, t1rest := 0 }
        [0, 1, 2, 3, 4, 5, 6, 7, 8, 9, 10, 11]).1 = .ok () := by
  constructor
  · intro c h idx hdr data hinst hidx hlen
    unfold write_tx_buffer_pend tx_buffer
    rw [if_neg (by simp [hinst]), if_neg (by omega)]
    simp only []
    rw [hlen]
    rfl
  · rfl

/-- Witness for C6: the 10-byte rejection applied at an 8-byte-field channel
and at the 16-byte-field sample channel. -/
theorem c6_exact_dlc_steps_witness :
    write_tx_buffer_pend
        { sampleChannel with
          config := { sampleConfig with
                      layout := { sampleLayout with
                                  tx_buffers_data_size := DataFieldSize._8Bytes } }
          mode := Mode.NormalOperationMode }
        sampleHw { inst := .FdCan1, idx := 0 } { t0word := 0, t1rest := 0 }
        [0, 1, 2, 3, 4, 5, 6, 7, 8, 9]
      = (.error Error.WrongDataSize, sampleHw)
    ∧ write_tx_buffer_pend { sampleChannel with mode := Mode.NormalOperationMode } sampleHw
        { inst := .FdCan1, idx := 0 } { t0word := 0, t1rest := 0 }
        [0, 1, 2, 3, 4, 5, 6, 7, 8, 9]
      = (.error Error.WrongDataSize, sampleHw) :=
  ⟨(c6_exact_dlc_steps).1 _ _ _ _ _ rfl (by decide) rfl,
   (c6_exact_dlc_steps).1 _ _ _ _ _ rfl (by decide) rfl⟩

/-- Claim C10: on a successful `write_tx_buffer_pend`, payload bytes are
packed little-endian into consecutive words of the slot's data area: every
payload word — the final, possibly partial, 4-byte chunk included — holds
exactly the little-endian value of its chunk (a partial chunk's unused byte
positions are zero, since `leWord` of fewer than four bytes has zero high
bytes), while every whole data word of the slot beyond the payload keeps its
pre-existing RAM contents — the slot tail is not zero-filled up to the DLC
step. -/
theorem c10_payload_packing (c : FdCanState) (h : Hw) (idx : TxBufferIdx)
    (hdr : TxFrameHeader) (data : List Nat) (dlc : Dlc)
    (hinst : idx.inst = c.inst) (hidx : idx.idx < c.config.layout.tx_buffers_len)
    (hdlc : Dlc.from_len data.length = some dlc)
    (hmax : dlc.len ≤ c.config.layout.tx_buffers_data_size.max_len) :
    (write_tx_buffer_pend c h idx hdr data).1 = .ok ()
    ∧ (∀ j, j < (data.length + 3) / 4 →
        (write_tx_buffer_pend c h idx hdr data).2.ram
            (c.config.layout.tx_buffers_addr + idx.idx + 2 + j)
          = leWord ((data.drop (4 * j)).take 4))
    ∧ (∀ j, (data.length + 3) / 4 ≤ j → j < c.config.layout.tx_buffers_data_size.words →
        (write_tx_buffer_pend c h idx hdr data).2.ram
            (c.config.layout.tx_buffers_addr + idx.idx + 2 + j)
          = h.ram (c.config.layout.tx_buffers_addr + idx.idx + 2 + j)) := by
  have hlen : dlc.len = data.length := Dlc.from_len_len _ _ hdlc
  have hml := DataFieldSize.max_len_div c.config.layout.tx_buffers_data_size
  have hwords : (data.length + 3) / 4 ≤ c.config.layout.tx_buffers_data_size.words := by
    omega
  rw [write_tx_buffer_pend_ok c h idx hdr data dlc hinst hidx hdlc hmax]
  refine ⟨rfl, ?_, ?_⟩
  · intro j hj
    simp only []
    rw [packPayload_written _ j data _ _ (by omega) (by omega)]
  · intro j hj1 hj2
    simp only []
    rw [packPayload_ge _ data _ _ _ (by omega)]
    unfold fill wupd
    rw [if_neg (by omega), if_neg (by omega)]

/-- Witness for C10: a 5-byte payload into a 16-byte slot — word 1 is the
zero-padded final chunk [5], words 2 and 3 keep the prior RAM pattern. -/
theorem c10_payload_packing_witness :
    (write_tx_buffer_pend { sampleChannel with mode := Mode.NormalOperationMode } sampleHw
        { inst := .FdCan1, idx := 0 } { t0word := 0, t1rest := 0 } [1, 2, 3, 4, 5]).1 = .ok ()
    ∧ (write_tx_buffer_pend { sampleChannel with mode := Mode.NormalOperationMode } sampleHw
        { inst := .FdCan1, idx := 0 } { t0word := 0, t1rest := 0 } [1, 2, 3, 4, 5]).2.ram 103
      = 5
    ∧ (write_tx_buffer_pend { sampleChannel with mode := Mode.NormalOperationMode } sampleHw
        { inst := .FdCan1, idx := 0 } { t0word := 0, t1rest := 0 } [1, 2, 3, 4, 5]).2.ram 104
      = 1104 := by
  obtain ⟨h1, h2, h3⟩ := c10_payload_packing
    { sampleChannel with mode := Mode.NormalOperationMode } sampleHw
    { inst := .FdCan1, idx := 0 } { t0word := 0, t1rest := 0 } [1, 2, 3, 4, 5]
    Dlc._5Bytes rfl (by decide) rfl (by decide)
  refine ⟨h1, ?_, ?_⟩
  · have hh := h2 1 (by norm_num)
    simpa [sampleChannel, sampleConfig, sampleLayout, MessageRamLayout.default, leWord]
      using hh
  · have hh := h3 2 (by norm_num)
      (by simp [sampleChannel, sampleConfig, sampleLayout, DataFieldSize.words])
    simpa [sampleChannel, sampleConfig, sampleLayout, MessageRamLayout.default, sampleHw]
      using hh

end Mcan
